import Mathlib

/-! # butler `push` pipeline: embedding of `src/push.go`

Go strings are modelled by Lean `String`s (the separator `:` is a single
byte, so splitting on characters and splitting on bytes agree), Go `error`
values by the inductive `GoError`, `int64` values by `Int` with Go's
wrap-around written out (`wrapInt64`), conversions to `float64` by rounding
to 53 bits (`roundFloat64`).  Calls into external collaborators (the remote
build client, the differencing engine, the upload sinks) are fields of a
`World` record that fixes what each call answers.  Tasks that run side by
side are moved one program point at a time by a schedule, which is part of
that record as well; the variable they share is part of the state.
-/

namespace Butler

/-! ## Errors -/

/-- Go `error` values that the pipeline handles. -/
inductive GoError where
  /-- An error built by `fmt.Errorf` with the formatted message. -/
  | errorf (msg : String)
  /-- An error value handed back by an external collaborator. -/
  | external (code : Nat)
  /-- An `*errors.Error` of go-errors that holds `inner`. -/
  | wrap (inner : GoError)
  /-- A nil `*errors.Error` stored in an `error` value, which is then not
  `nil`. -/
  | nilWrapper
  deriving DecidableEq, Repr

/-- The call `errors.Wrap(e, skip)` of go-errors on an `e` that is not
`nil`: an `*errors.Error` comes back as it is, any other error is put into
a new `*errors.Error`. -/
def Wrap : GoError → GoError
  | GoError.wrap inner => GoError.wrap inner
  | GoError.nilWrapper => GoError.nilWrapper
  | GoError.errorf msg => GoError.wrap (GoError.errorf msg)
  | GoError.external code => GoError.wrap (GoError.external code)

/-- The call `errors.Wrap(err, skip)` on a variable that may hold `nil`, the
result used as an `error`: for `nil` go-errors returns a nil
`*errors.Error`. -/
def WrapVar : Option GoError → GoError
  | none => GoError.nilWrapper
  | some e => Wrap e

/-- The call `errors.New(msg)` of go-errors on a string: an `*errors.Error`
around `fmt.Errorf("%v", msg)`. -/
def New (msg : String) : GoError := GoError.wrap (GoError.errorf msg)

/-! ## Spec parser (`parseSpec`, push.go 421-431) -/

/-- The pieces of a character list between occurrences of `sep`, as
`strings.Split` yields them for a one-character separator: `n` separators
give `n + 1` pieces, empty pieces included. -/
def splitChars (sep : Char) : List Char → List (List Char)
  | [] => [[]]
  | c :: cs =>
    if c = sep then [] :: splitChars sep cs
    else
      match splitChars sep cs with
      | [] => [[c]]
      | t :: ts => (c :: t) :: ts

/-- The call `strings.Split(spec, ":")`. -/
def stringsSplitColon (spec : String) : List String :=
  (splitChars ':' spec.data).map String.mk

/-- The diagnostic of push.go line 425. -/
def missingChannelMsg (spec : String) : String :=
  "invalid spec: " ++ spec ++ ", missing channel (examples: " ++ spec ++
    ":windows-32-beta, " ++ spec ++ ":linux-64)"

/-- The diagnostic of push.go line 427. -/
def invalidSpecMsg (spec : String) : String :=
  "invalid spec: " ++ spec ++ ", expected something of the form user/page:channel"

/-- The function `parseSpec`: the two returned strings and the error
(`none` is Go's `nil`). -/
def parseSpec (spec : String) : String × String × Option GoError :=
  let tokens := stringsSplitColon spec
  if tokens.length = 1 then
    ("", "", some (GoError.errorf (missingChannelMsg spec)))
  else if tokens.length ≠ 2 then
    ("", "", some (GoError.errorf (invalidSpecMsg spec)))
  else
    (tokens.getD 0 "", tokens.getD 1 "", none)

/-- Number of `:` separators in a spec. -/
def colonCount (spec : String) : Nat :=
  spec.data.count ':'

/-! ## Data model -/

/-- The kind of a remote build file (`itchio.BuildFileType`). -/
inductive BuildFileType where
  | PATCH
  | SIGNATURE
  /-- Any other kind the service may list (archive, manifest, ...). -/
  | other (name : String)
  deriving DecidableEq, Repr

/-- One entry of `ListBuildFilesResponse.Files`. -/
structure BuildFile where
  ID : Int
  /-- The Go field `Type`. -/
  Kind : BuildFileType
  deriving DecidableEq, Repr

/-- The manifest `tlc.Container`: total size and the listed entries with
their sizes. -/
structure Container where
  Size : Int
  Entries : List (String × Int)
  deriving DecidableEq, Repr

/-- The value `&tlc.Container{}` of push.go line 61. -/
def Container.empty : Container := ⟨0, []⟩

/-- One block of a signature (`sync.BlockHash`). -/
structure BlockHash where
  WeakHash : Nat
  StrongHash : List Nat
  deriving DecidableEq, Repr

/-- The `Build` part of `CreateBuild`'s response that `doPush` reads. -/
structure NewBuild where
  ID : Int
  ParentBuildID : Int
  deriving DecidableEq, Repr

/-- The `File` part of `itchio.NewBuildFileResponse`. -/
structure NewBuildFile where
  ID : Int
  UploadURL : String
  UploadHeaders : List (String × String)
  deriving DecidableEq, Repr

/-- The response `itchio.NewBuildFileResponse`. -/
structure NewBuildFileResponse where
  File : NewBuildFile
  deriving DecidableEq, Repr

/-- Go's zero value of `itchio.NewBuildFileResponse`. -/
def NewBuildFileResponse.zero : NewBuildFileResponse := ⟨⟨0, "", []⟩⟩

/-- The struct `fileSlot` (push.go 299-302). -/
structure fileSlot where
  /-- The Go field `Type`. -/
  Kind : BuildFileType
  Response : NewBuildFileResponse
  deriving DecidableEq, Repr

/-- What the bootstrap request's response carries. -/
structure HttpResponse where
  StatusCode : Int
  Location : String
  deriving DecidableEq, Repr

/-! ## Signals on the upload channels -/

/-- A value delivered on a `done chan bool` / `errs chan error` pair. -/
inductive Signal where
  | done
  | err (e : GoError)
  deriving DecidableEq, Repr

/-! ## Tasks that share a variable and signal a coordinator

Both `createBothFiles` and the end of `doPush` launch two tasks that assign
and read a variable they have captured and then send on a `done` or an
`errs` channel, while the coordinator receives in a loop.  A task is given
by its program points; a schedule says which task moves next. -/

/-- What a task does in its next move; `τ` is its program point together
with its local variables, `δ` what it sends on `done`. -/
inductive Move (τ δ : Type) where
  /-- A move that touches nothing shared. -/
  | next (t : τ)
  /-- An assignment to the captured variable `err`. -/
  | assign (v : Option GoError) (t : τ)
  /-- The send `errs <- v`; it is over when the coordinator has received. -/
  | sendErr (v : GoError) (t : τ)
  /-- The send `done <- d`; it is over when the coordinator has received. -/
  | sendDone (d : δ) (t : τ)
  /-- A nil pointer is dereferenced and the process panics. -/
  | nilDeref
  /-- The task has returned. -/
  | halt

/-- The receive loop of a coordinator with state `κ`. -/
structure Receiver (κ δ : Type) where
  /-- Whether the coordinator is still in its loop, ready to receive. -/
  waiting : κ → Bool
  /-- The `case` that receives from `errs`: the new state and the new value
  of the captured variable, from the old ones and the value received. -/
  recvErr : κ → Option GoError → GoError → κ × Option GoError
  /-- The `case` that receives from `done`. -/
  recvDone : κ → δ → κ

/-- The state of two tasks and their coordinator. -/
structure Tasks (τ κ : Type) where
  /-- The captured variable `err`. -/
  err : Option GoError
  /-- The program point of the task launched first. -/
  first : τ
  /-- The program point of the task launched second. -/
  second : τ
  /-- The state of the coordinator. -/
  coord : κ
  /-- Whether a task has dereferenced a nil pointer. -/
  crashed : Bool

/-- The state with task `b` (`true` the first one) at the point `t`. -/
def Tasks.put {τ κ : Type} (m : Tasks τ κ) (b : Bool) (t : τ) : Tasks τ κ :=
  if b then { m with first := t } else { m with second := t }

/-- One move of task `b`, whose program `prog b` sees the current value of
the captured variable; `none` when the task cannot move: it has returned,
or it waits at a send while the coordinator has left its loop. -/
def Tasks.step {τ κ δ : Type} (prog : Bool → Option GoError → τ → Move τ δ)
    (rc : Receiver κ δ) (m : Tasks τ κ) (b : Bool) : Option (Tasks τ κ) :=
  match prog b m.err (if b then m.first else m.second) with
  | Move.next t => some (m.put b t)
  | Move.assign v t => some ({ m with err := v }.put b t)
  | Move.sendErr v t =>
    if rc.waiting m.coord then
      some ({ m with coord := (rc.recvErr m.coord m.err v).1,
                     err := (rc.recvErr m.coord m.err v).2 }.put b t)
    else none
  | Move.sendDone d t =>
    if rc.waiting m.coord then some ({ m with coord := rc.recvDone m.coord d }.put b t)
    else none
  | Move.nilDeref => some { m with crashed := true }
  | Move.halt => none

/-- The moves after the schedule is used up: while the coordinator is still
in its loop the tasks move on, the first one as long as it can, for at
most `fuel` moves. -/
def Tasks.drain {τ κ δ : Type} (prog : Bool → Option GoError → τ → Move τ δ)
    (rc : Receiver κ δ) : Nat → Tasks τ κ → Tasks τ κ
  | 0, m => m
  | fuel + 1, m =>
    if m.crashed || !rc.waiting m.coord then m
    else
      match m.step prog rc true with
      | some m' => Tasks.drain prog rc fuel m'
      | none =>
        match m.step prog rc false with
        | some m' => Tasks.drain prog rc fuel m'
        | none => m

/-- The run of two tasks: the schedule lists the tasks' moves that happen
before the coordinator, done with its loop, returns (`true` moves the first
task; a task that cannot move leaves the move to the other one).  A panic
ends the run. -/
def Tasks.run {τ κ δ : Type} (prog : Bool → Option GoError → τ → Move τ δ)
    (rc : Receiver κ δ) (fuel : Nat) : List Bool → Tasks τ κ → Tasks τ κ
  | [], m => Tasks.drain prog rc fuel m
  | b :: sched, m =>
    if m.crashed then m
    else
      match m.step prog rc b with
      | some m' => Tasks.run prog rc fuel sched m'
      | none =>
        match m.step prog rc (!b) with
        | some m' => Tasks.run prog rc fuel sched m'
        | none => m

/-- More moves than two tasks of the programs below can make. -/
def drainFuel : Nat := 32

/-! ## Upload session initializer (`createBothFiles`, push.go 299-363) -/

/-- The answers of the external calls made by one `createFile` task. -/
structure CreateFileWorld where
  /-- The call `client.CreateBuildFile(buildID, kind, DEFAULT, DEFERRED_RESUMABLE)`. -/
  createBuildFile : NewBuildFileResponse × Option GoError
  /-- The call `http.NewRequest("POST", url, nil)`: `some e` when it fails
  (the request is then `nil`). -/
  newRequest : String → Option GoError
  /-- The call `client.HTTPClient.Do(req)` for a request to `url` carrying
  `headers`: the response (`none` is a `nil` pointer) and the error. -/
  httpDo : String → List (String × String) → Option HttpResponse × Option GoError

/-- The diagnostic of push.go line 330. -/
def sessionStatusMsg (status : Int) : String :=
  "could not create resumable upload session (got HTTP " ++ toString status ++ ")"

/-- The program points of the closure `createFile` (push.go 305-339) at
which it touches the captured `err`, sends, or dereferences, with the local
variables alive there. -/
inductive CreateFilePc where
  /-- Before line 307. -/
  | start
  /-- At the test `err != nil` of line 308. -/
  | test (res : NewBuildFileResponse)
  /-- In line 309, before `errors.Wrap(err, 1)` is evaluated. -/
  | wrapErr (res : NewBuildFileResponse)
  /-- At the send of line 309. -/
  | sendRegistrationErr (res : NewBuildFileResponse) (v : GoError)
  /-- At the send of line 315; `req` is `nil`. -/
  | sendRequestErr (reqErr : GoError)
  /-- At line 318 with a nil `req`. -/
  | derefRequest
  /-- At the send of line 326. -/
  | sendTransportErr (res : NewBuildFileResponse) (gcsRes : Option HttpResponse)
      (gcsErr : GoError)
  /-- At line 329 with a nil `gcsRes`. -/
  | derefResponse
  /-- At the send of line 330. -/
  | sendStatusErr (res : NewBuildFileResponse) (gcsRes : HttpResponse)
  /-- At the send of line 338. -/
  | sendSlot (res : NewBuildFileResponse) (gcsRes : HttpResponse)
  /-- After line 338. -/
  | finished
  deriving DecidableEq, Repr

/-- Line 329 of `createFile`: where the task stands once it has the
bootstrap response. -/
def createFile_status (res : NewBuildFileResponse) : Option HttpResponse → CreateFilePc
  | none => CreateFilePc.derefResponse
  | some gcsRes =>
    if gcsRes.StatusCode ≠ 201 then CreateFilePc.sendStatusErr res gcsRes
    else CreateFilePc.sendSlot res gcsRes

/-- Lines 313-325 of `createFile`, which touch nothing shared: the request
is built and sent, up to the next send or dereference. -/
def createFile_bootstrap (w : CreateFileWorld) (res : NewBuildFileResponse) : CreateFilePc :=
  match w.newRequest res.File.UploadURL with
  | some reqErr => CreateFilePc.sendRequestErr reqErr
  | none =>
    match w.httpDo res.File.UploadURL res.File.UploadHeaders with
    | (gcsRes, some gcsErr) => CreateFilePc.sendTransportErr res gcsRes gcsErr
    | (gcsRes, none) => createFile_status res gcsRes

/-- The closure `createFile` of `createBothFiles` (push.go 305-339): its
next move at each program point, `err` being the current value of the
named result `err` of `createBothFiles`, which both tasks assign (line
307) and read (lines 308 and 309).  No send on `errs` is followed by a
`return`. -/
def createFile (w : CreateFileWorld) (buildType : BuildFileType) (err : Option GoError) :
    CreateFilePc → Move CreateFilePc fileSlot
  | CreateFilePc.start =>
    Move.assign w.createBuildFile.2 (CreateFilePc.test w.createBuildFile.1)
  | CreateFilePc.test res =>
    match err with
    | some _ => Move.next (CreateFilePc.wrapErr res)
    | none => Move.next (createFile_bootstrap w res)
  | CreateFilePc.wrapErr res => Move.next (CreateFilePc.sendRegistrationErr res (WrapVar err))
  | CreateFilePc.sendRegistrationErr res v => Move.sendErr v (createFile_bootstrap w res)
  | CreateFilePc.sendRequestErr reqErr => Move.sendErr (Wrap reqErr) CreateFilePc.derefRequest
  | CreateFilePc.derefRequest => Move.nilDeref
  | CreateFilePc.sendTransportErr res gcsRes gcsErr =>
    Move.sendErr (Wrap gcsErr) (createFile_status res gcsRes)
  | CreateFilePc.derefResponse => Move.nilDeref
  | CreateFilePc.sendStatusErr res gcsRes =>
    Move.sendErr (Wrap (GoError.errorf (sessionStatusMsg gcsRes.StatusCode)))
      (CreateFilePc.sendSlot res gcsRes)
  | CreateFilePc.sendSlot res gcsRes =>
    Move.sendDone ⟨buildType, ⟨⟨res.File.ID, gcsRes.Location, []⟩⟩⟩ CreateFilePc.finished
  | CreateFilePc.finished => Move.halt

/-- The variables of the coordinator of `createBothFiles` (push.go 341-362),
and the slots it has received so far, in order of arrival. -/
structure BothFilesLoop where
  /-- The named result `patch`. -/
  patch : NewBuildFileResponse
  /-- The named result `signature`. -/
  signature : NewBuildFileResponse
  /-- The loop variable `i`. -/
  i : Nat
  /-- Whether the `return` of line 351 was reached. -/
  returned : Bool
  /-- The slots received on `done`, in order of arrival. -/
  received : List fileSlot
  deriving DecidableEq, Repr

/-- The loop of `createBothFiles` (push.go 347-360): it runs while `i < 2`;
an error received is assigned to `err`, wrapped, and ends the function; a
slot received is stored under its kind. -/
def createBothFiles_receiver : Receiver BothFilesLoop fileSlot where
  waiting := fun c => !c.returned && decide (c.i < 2)
  recvErr := fun c _ e => ({ c with returned := true }, some (Wrap e))
  recvDone := fun c slot =>
    match slot.Kind with
    | BuildFileType.PATCH =>
      { c with patch := slot.Response, i := c.i + 1, received := c.received ++ [slot] }
    | BuildFileType.SIGNATURE =>
      { c with signature := slot.Response, i := c.i + 1, received := c.received ++ [slot] }
    | BuildFileType.other _ => { c with i := c.i + 1, received := c.received ++ [slot] }

/-- The named results of `createBothFiles`. -/
structure BothFiles where
  patch : NewBuildFileResponse
  signature : NewBuildFileResponse
  err : Option GoError
  deriving DecidableEq, Repr

/-- The run of `createBothFiles` (push.go 304-363) under a schedule of its
two tasks, the PATCH task being the first: the state when the function
returns, or when a task has panicked. -/
def createBothFiles_run (wPatch wSig : CreateFileWorld) (sched : List Bool) :
    Tasks CreateFilePc BothFilesLoop :=
  Tasks.run
    (fun b => if b then createFile wPatch BuildFileType.PATCH
      else createFile wSig BuildFileType.SIGNATURE)
    createBothFiles_receiver drainFuel sched
    ⟨none, CreateFilePc.start, CreateFilePc.start,
      ⟨NewBuildFileResponse.zero, NewBuildFileResponse.zero, 0, false, []⟩, false⟩

/-- The function `createBothFiles` (push.go 304-363): its named results as
they stand when it returns; `none` when it does not return, a task having
panicked or the coordinator waiting for a signal that never comes. -/
def createBothFiles (wPatch wSig : CreateFileWorld) (sched : List Bool) : Option BothFiles :=
  let m := createBothFiles_run wPatch wSig sched
  if m.crashed || createBothFiles_receiver.waiting m.coord then none
  else some ⟨m.coord.patch, m.coord.signature, m.err⟩

/-! ## The coordinator: trace, outcome and external answers -/

/-- What the coordinating task of `doPush` does, in program order: calls to
collaborators and launches of tasks (a launch stands for the calls that
task issues). -/
inductive Action where
  /-- Line 35: `go doWalk(buildPath, ...)`, a scan of the local file system. -/
  | goDoWalk (buildPath : String) (fixPerms : Bool)
  /-- Line 42. -/
  | authenticateViaOauth
  /-- Line 47. -/
  | createBuild (target channel userVersion : String)
  /-- Line 65. -/
  | listBuildFiles (buildID : Int)
  /-- Line 83. -/
  | downloadBuildFile (buildID fileID : Int)
  /-- Line 88: `pwr.ReadSignature` on the downloaded stream. -/
  | readSignature
  /-- Lines 344-345: `go createFile(kind, done, errs)`. -/
  | goCreateFile (buildID : Int) (kind : BuildFileType)
  /-- Lines 102 and 109: `uploader.NewResumableUpload(url, ...)`. -/
  | newResumableUpload (url : String)
  /-- Line 178: launch of the periodic sampler. -/
  | goSampler
  /-- Line 218: `dctx.WritePatch`, which offers bytes to both sinks. -/
  | writePatch
  /-- Lines 234-235: `go doClose(writer, ...)`. -/
  | goDoClose (kind : BuildFileType)
  /-- Line 246: `close(stopTicking)`. -/
  | closeStopTicking
  /-- Lines 262-263: `go doFinalize(fileID, fileSize, ...)`. -/
  | goDoFinalize (buildID fileID fileSize : Int)
  deriving DecidableEq, Repr

/-- Whether an action talks to the network. -/
def Action.isRemote : Action → Bool
  | Action.goDoWalk _ _ => false
  | Action.closeStopTicking => false
  | Action.goSampler => false
  | _ => true

/-- How an activation of `doPush` ends. -/
inductive Outcome where
  /-- The function returns this error (`none` is `nil`). -/
  | returned (err : Option GoError)
  /-- The process is ended by `comm.Dief` with this message. -/
  | died (msg : String)
  /-- A `nil` pointer is dereferenced. -/
  | panicked
  /-- The coordinator waits for a signal that never comes. -/
  | blocked
  deriving DecidableEq, Repr

/-- Modelled from the spec: `comm.Dief` is not part of the sources at hand;
the spec calls the failure it raises fatal and user-facing, so the call
ends the push with the formatted message and nothing after it runs. -/
def Dief (msg : String) : Outcome := Outcome.died msg

/-- The message of push.go line 79. -/
def noSignatureMsg (parentID : Int) : String :=
  "Could not find signature for parent build " ++ toString parentID ++ ", aborting"

/-- The answers of everything `doPush` calls and the order in which the
signals of its tasks arrive. -/
structure World where
  /-- The call `strings.ToLower`. -/
  toLower : String → String
  /-- What `doWalk` delivers on `walkErrs` or `sourceContainerChan`. -/
  walk : Except GoError Container
  /-- The error of `authenticateViaOauth()`. -/
  authenticateViaOauth : Option GoError
  /-- The call `client.CreateBuild(target, channel, userVersion)`. -/
  createBuild : String → String → String → Except GoError NewBuild
  /-- The call `client.ListBuildFiles(buildID)`. -/
  listBuildFiles : Int → Except GoError (List BuildFile)
  /-- The call `client.DownloadBuildFile(buildID, fileID)`; the stream is
  named by a number. -/
  downloadBuildFile : Int → Int → Except GoError Nat
  /-- The call `pwr.ReadSignature(reader)`. -/
  readSignature : Nat → Except GoError (Container × List BlockHash)
  /-- The answers to the `createFile` task of each kind. -/
  createFile : BuildFileType → CreateFileWorld
  /-- The order in which the two `createFile` tasks move before
  `createBothFiles` returns (`true` moves the PATCH task). -/
  createSchedule : List Bool
  /-- The call `uploader.NewResumableUpload(url, ...)` for the sink of a
  kind: whether the returned pointer is non-nil, and the error. -/
  newResumableUpload : BuildFileType → String → Bool × Option GoError
  /-- The call `dctx.WritePatch` on the source container and the baseline. -/
  writePatch : Container → Container → List BlockHash → Option GoError
  /-- The signals on `uploadDone` / `uploadErrs` in order of arrival, sent by
  the two `doClose` tasks and by the sinks. -/
  uploadSignals : List Signal
  /-- The call `patchCounter.Count()`. -/
  patchCount : Int
  /-- The call `signatureCounter.Count()`. -/
  signatureCount : Int
  /-- The error of `client.FinalizeBuildFile(buildID, fileID, fileSize)`. -/
  finalizeBuildFile : Int → Int → Int → Option GoError
  /-- The order in which the two `doFinalize` tasks move (`true` moves the
  patch file's task). -/
  finalizeSchedule : List Bool

/-! ## Baseline resolution (push.go 55-92) -/

/-- The loop of push.go 70-76: the ID of the first signature-kind entry, 0
when there is none. -/
def findSignatureFileID : List BuildFile → Int
  | [] => 0
  | f :: fs => if f.Kind = BuildFileType.SIGNATURE then f.ID else findSignatureFileID fs

/-- The result of the baseline step. -/
inductive Baseline where
  | resolved (targetContainer : Container) (targetSignature : List BlockHash)
  | stopped (o : Outcome)
  deriving DecidableEq, Repr

/-- The baseline step of `doPush` (push.go 58-92). -/
def resolveBaseline (w : World) (parentID : Int) : List Action × Baseline :=
  if parentID = 0 then
    ([], Baseline.resolved Container.empty [])
  else
    match w.listBuildFiles parentID with
    | Except.error err =>
      ([Action.listBuildFiles parentID],
        Baseline.stopped (Outcome.returned (some (Wrap err))))
    | Except.ok files =>
      let signatureFileID := findSignatureFileID files
      if signatureFileID = 0 then
        ([Action.listBuildFiles parentID], Baseline.stopped (Dief (noSignatureMsg parentID)))
      else
        match w.downloadBuildFile parentID signatureFileID with
        | Except.error err =>
          ([Action.listBuildFiles parentID, Action.downloadBuildFile parentID signatureFileID],
            Baseline.stopped (Outcome.returned (some (Wrap err))))
        | Except.ok signatureReader =>
          match w.readSignature signatureReader with
          | Except.error err =>
            ([Action.listBuildFiles parentID, Action.downloadBuildFile parentID signatureFileID,
              Action.readSignature],
              Baseline.stopped (Outcome.returned (some (Wrap err))))
          | Except.ok (targetContainer, targetSignature) =>
            ([Action.listBuildFiles parentID, Action.downloadBuildFile parentID signatureFileID,
              Action.readSignature],
              Baseline.resolved targetContainer targetSignature)

/-! ## Waiting for signals (push.go 237-244) -/

/-- The result of a wait loop. -/
inductive Await where
  /-- Every awaited signal came; `rest` are the signals not received. -/
  | proceeded (rest : List Signal)
  /-- An error signal came first. -/
  | failed (e : GoError)
  /-- The signals ran out before the loop was through. -/
  | blocked
  deriving DecidableEq, Repr

/-- A loop `for i := 0; i < n; i++ { select { case e := <-errs: return ...;
case <-done: } }` over the signals in order of arrival. -/
def awaitSignals : Nat → List Signal → Await
  | 0, sigs => Await.proceeded sigs
  | _ + 1, [] => Await.blocked
  | _ + 1, Signal.err e :: _ => Await.failed e
  | n + 1, Signal.done :: sigs => awaitSignals n sigs

/-- The bound of the upload close loop, `c < 4` on push.go line 237. -/
def uploadCloseCount : Nat := 4

/-- The bound of the finalize loop, `i < 2` on push.go line 265. -/
def finalizeCount : Nat := 2

/-- The closure `doClose` (push.go 224-232): the signal it sends for the
result of `c.Close()`. -/
def doClose (closeErr : Option GoError) : Signal :=
  match closeErr with
  | some e => Signal.err (Wrap e)
  | none => Signal.done

/-- The program points of the closure `doFinalize` (push.go 252-260). -/
inductive FinalizePc where
  /-- Before line 253. -/
  | start
  /-- At the test `err != nil` of line 254. -/
  | test
  /-- In line 255, before `errors.Wrap(err, 1)` is evaluated. -/
  | wrapErr
  /-- At the send of line 255. -/
  | sendErr (v : GoError)
  /-- At the send of line 259. -/
  | sendDone
  /-- After the `return` of line 256 or after line 259. -/
  | finished
  deriving DecidableEq, Repr

/-- The closure `doFinalize` (push.go 252-260): its next move at each
program point, `err` being the current value of the variable `err` of
`doPush`, which both tasks assign (line 253) and read (lines 254 and
255). -/
def doFinalize (w : World) (buildID fileID fileSize : Int) (err : Option GoError) :
    FinalizePc → Move FinalizePc Unit
  | FinalizePc.start =>
    Move.assign (w.finalizeBuildFile buildID fileID fileSize) FinalizePc.test
  | FinalizePc.test =>
    match err with
    | some _ => Move.next FinalizePc.wrapErr
    | none => Move.next FinalizePc.sendDone
  | FinalizePc.wrapErr => Move.next (FinalizePc.sendErr (WrapVar err))
  | FinalizePc.sendErr v => Move.sendErr v FinalizePc.finished
  | FinalizePc.sendDone => Move.sendDone () FinalizePc.finished
  | FinalizePc.finished => Move.halt

/-- The variables of the finalize loop of `doPush` (push.go 265-271). -/
structure FinalizeLoop where
  /-- The loop variable `i`. -/
  i : Nat
  /-- The error of the `return` of line 268, once that line is reached. -/
  failure : Option GoError
  deriving DecidableEq, Repr

/-- The finalize loop of `doPush` (push.go 265-271): it runs while `i < 2`;
an error received is kept in a variable of its own and returned wrapped. -/
def finalizeReceiver : Receiver FinalizeLoop Unit where
  waiting := fun c => c.failure.isNone && decide (c.i < finalizeCount)
  recvErr := fun c err e => ({ c with failure := some (Wrap e) }, err)
  recvDone := fun c _ => { c with i := c.i + 1 }

/-! ## The pipeline `doPush` (push.go 29-297) -/

/-- The run of the two `doFinalize` tasks of push.go 262-263, the patch
file's task being the first; `err` is `nil` when they are launched. -/
def doPush_finalizeRun (w : World) (buildID : Int)
    (newPatchRes newSignatureRes : NewBuildFileResponse) : Tasks FinalizePc FinalizeLoop :=
  Tasks.run
    (fun b => if b then doFinalize w buildID newPatchRes.File.ID w.patchCount
      else doFinalize w buildID newSignatureRes.File.ID w.signatureCount)
    finalizeReceiver drainFuel w.finalizeSchedule
    ⟨none, FinalizePc.start, FinalizePc.start, ⟨0, none⟩, false⟩

/-- The end of `doPush` (push.go 246-296): the sampler is told to stop, the
two finalize tasks are launched with the counted sizes, and the coordinator
waits for both. -/
def doPush_finalize (w : World) (buildID : Int)
    (newPatchRes newSignatureRes : NewBuildFileResponse) : List Action × Outcome :=
  let trace :=
    [Action.closeStopTicking,
     Action.goDoFinalize buildID newPatchRes.File.ID w.patchCount,
     Action.goDoFinalize buildID newSignatureRes.File.ID w.signatureCount]
  let m := doPush_finalizeRun w buildID newPatchRes newSignatureRes
  if m.crashed then (trace, Outcome.panicked)
  else
    match m.coord.failure with
    | some err => (trace, Outcome.returned (some err))
    | none =>
      if m.coord.i < finalizeCount then (trace, Outcome.blocked)
      else (trace, Outcome.returned none)

/-- The middle of `doPush` (push.go 99-244), entered with both build files
created: the two sinks, the source container, the diff, the close loop. -/
def doPush_upload (w : World) (buildID : Int) (targetContainer : Container)
    (targetSignature : List BlockHash)
    (newPatchRes newSignatureRes : NewBuildFileResponse) : List Action × Outcome :=
  let t1 := [Action.newResumableUpload newPatchRes.File.UploadURL]
  match w.newResumableUpload BuildFileType.PATCH newPatchRes.File.UploadURL with
  | (false, _) => (t1, Outcome.panicked)
  | (true, some err) => (t1, Outcome.returned (some (Wrap err)))
  | (true, none) =>
    let t2 := t1 ++ [Action.newResumableUpload newSignatureRes.File.UploadURL]
    match w.newResumableUpload BuildFileType.SIGNATURE newSignatureRes.File.UploadURL with
    | (false, _) => (t2, Outcome.panicked)
    | (true, some err) => (t2, Outcome.returned (some (Wrap err)))
    | (true, none) =>
      match w.walk with
      | Except.error walkErr => (t2, Outcome.returned (some (Wrap walkErr)))
      | Except.ok sourceContainer =>
        let t3 := t2 ++ [Action.goSampler, Action.writePatch]
        match w.writePatch sourceContainer targetContainer targetSignature with
        | some err => (t3, Outcome.returned (some (Wrap err)))
        | none =>
          let t4 := t3 ++ [Action.goDoClose BuildFileType.PATCH,
            Action.goDoClose BuildFileType.SIGNATURE]
          match awaitSignals uploadCloseCount w.uploadSignals with
          | Await.failed uploadErr => (t4, Outcome.returned (some (Wrap uploadErr)))
          | Await.blocked => (t4, Outcome.blocked)
          | Await.proceeded _ =>
            let r := doPush_finalize w buildID newPatchRes newSignatureRes
            (t4 ++ r.1, r.2)

/-- The session step of `doPush` (push.go 94-97) and what follows it.  A
task of `createBothFiles` that panics ends the process. -/
def doPush_sessions (w : World) (buildID : Int) (targetContainer : Container)
    (targetSignature : List BlockHash) : List Action × Outcome :=
  let t0 := [Action.goCreateFile buildID BuildFileType.PATCH,
    Action.goCreateFile buildID BuildFileType.SIGNATURE]
  let m := createBothFiles_run (w.createFile BuildFileType.PATCH)
    (w.createFile BuildFileType.SIGNATURE) w.createSchedule
  if m.crashed then (t0, Outcome.panicked)
  else
    match createBothFiles (w.createFile BuildFileType.PATCH)
        (w.createFile BuildFileType.SIGNATURE) w.createSchedule with
    | none => (t0, Outcome.blocked)
    | some ⟨_, _, some err⟩ => (t0, Outcome.returned (some (Wrap err)))
    | some ⟨newPatchRes, newSignatureRes, none⟩ =>
      let r := doPush_upload w buildID targetContainer targetSignature newPatchRes
        newSignatureRes
      (t0 ++ r.1, r.2)

/-- The function `doPush` (push.go 29-297): the actions of the coordinating
task and how it ends. -/
def doPush (w : World) (buildPath spec userVersion : String) (fixPerms : Bool) :
    List Action × Outcome :=
  let spec := w.toLower spec
  let t0 := [Action.goDoWalk buildPath fixPerms]
  match parseSpec spec with
  | (_, _, some err) => (t0, Outcome.returned (some (Wrap err)))
  | (target, channel, none) =>
    let t1 := t0 ++ [Action.authenticateViaOauth]
    match w.authenticateViaOauth with
    | some err => (t1, Outcome.returned (some (Wrap err)))
    | none =>
      let t2 := t1 ++ [Action.createBuild target channel userVersion]
      match w.createBuild target channel userVersion with
      | Except.error err => (t2, Outcome.returned (some (Wrap err)))
      | Except.ok build =>
        let buildID := build.ID
        let parentID := build.ParentBuildID
        match resolveBaseline w parentID with
        | (tb, Baseline.stopped o) => (t2 ++ tb, o)
        | (tb, Baseline.resolved targetContainer targetSignature) =>
          let r := doPush_sessions w buildID targetContainer targetSignature
          (t2 ++ tb ++ r.1, r.2)

/-! ## Progress estimate (`updateProgress`, push.go 150-176) -/

/-- The value an `int64` operation leaves when its exact result is `n`: Go
wraps modulo `2^64` into the range from `-2^63` to `2^63 - 1`. -/
def wrapInt64 (n : Int) : Int :=
  (n + 9223372036854775808) % 18446744073709551616 - 9223372036854775808

/-- The number of low bits that a `float64` cannot hold of the natural
number `a`: the least `e`, searched from `e` on, with `a < 2^(53 + e)`. -/
def dropBits : Nat → Nat → Nat → Nat
  | 0, e, _ => e
  | fuel + 1, e, a => if a < 2 ^ (53 + e) then e else dropBits fuel (e + 1) a

/-- The integer held by `float64(n)` for an `int64` value `n`: `n` rounded
to 53 significant bits, a tie going to the even neighbour. -/
def roundFloat64 (n : Int) : Int :=
  let a := n.natAbs
  let e := dropBits 11 0 a
  let q := a / 2 ^ e
  let r := a % 2 ^ e
  let q' := if 2 ^ e < 2 * r ∨ (2 * r = 2 ^ e ∧ q % 2 = 1) then q + 1 else q
  if n < 0 then -((q' * 2 ^ e : Nat) : Int) else ((q' * 2 ^ e : Nat) : Int)

/-- The conversion `int64(x)` of a `float64` that holds the integer `x`.
Only `x = 2^63` lies outside the `int64` range; Go leaves that case to the
implementation, and the value taken here is the one of amd64. -/
def int64OfFloat64 (x : Int) : Int := wrapInt64 x

/-- A `float64` value: an exact rational (the rounding of a quotient is left
out), or one of the special values a division by zero produces. -/
inductive Float64 where
  | fin (q : ℚ)
  | posInf
  | negInf
  | nan
  deriving DecidableEq

/-- The quotient `float64(a) / float64(b)` of two `int64` values (the
zero of a converted integer is positive). -/
def Float64.divInt (a b : Int) : Float64 :=
  let x := roundFloat64 a
  let y := roundFloat64 b
  if y ≠ 0 then Float64.fin ((x : ℚ) / (y : ℚ))
  else if 0 < x then Float64.posInf
  else if x < 0 then Float64.negInf
  else Float64.nan

/-- The comparison `a < b` of `float64`s; false when either is `nan`. -/
def Float64.lt : Float64 → Float64 → Bool
  | Float64.fin a, Float64.fin b => decide (a < b)
  | Float64.fin _, Float64.posInf => true
  | Float64.negInf, Float64.fin _ => true
  | Float64.negInf, Float64.posInf => true
  | _, _ => false

/-- The comparison `a <= b` of `float64`s; false when either is `nan`. -/
def Float64.le : Float64 → Float64 → Bool
  | Float64.fin a, Float64.fin b => decide (a ≤ b)
  | Float64.fin _, Float64.posInf => true
  | Float64.negInf, Float64.fin _ => true
  | Float64.negInf, Float64.posInf => true
  | Float64.posInf, Float64.posInf => true
  | Float64.negInf, Float64.negInf => true
  | _, _ => false

/-- The function `min` (push.go 433-438). -/
def min (a b : Float64) : Float64 :=
  if Float64.lt a b then a else b

/-- The variables `updateProgress` reads; the byte counts are `int64`
values. -/
structure ProgressState where
  /-- The field `sourceContainer.Size`. -/
  sourceSize : Int
  /-- The variable `readBytes`. -/
  readBytes : Int
  /-- The field `patchWriter.TotalBytes`: patch bytes offered to the sink. -/
  totalBytes : Int
  /-- The field `patchWriter.UploadedBytes`: bytes the remote confirmed. -/
  uploadedBytes : Int
  /-- The variable `bytesPerSec`. -/
  bytesPerSec : ℚ

/-- The network part of the progress label. -/
inductive NetStatus where
  | idle
  | rate (bytesPerSec : ℚ)
  deriving DecidableEq

/-- The argument of `comm.ProgressLabel`. -/
inductive ProgressLabel where
  | left (netStatus : NetStatus) (leftBytes : Int)
  | almostThere
  deriving DecidableEq

/-- What one run of `updateProgress` reports. -/
structure ProgressReport where
  /-- The argument of `comm.ProgressLabel`. -/
  label : ProgressLabel
  /-- The argument of `comm.Progress`. -/
  progress : Float64
  /-- The argument of `comm.ProgressScale`. -/
  scale : Float64
  deriving DecidableEq

/-- The value `uploadedBytes` of push.go line 151,
`int64(float64(patchWriter.UploadedBytes))`. -/
def uploadedBytes (s : ProgressState) : Int :=
  int64OfFloat64 (roundFloat64 s.uploadedBytes)

/-- The value `goneBytes` of push.go line 156. -/
def goneBytes (s : ProgressState) : Int :=
  wrapInt64 (s.readBytes - s.totalBytes)

/-- The value `conservativeTotalBytes` of push.go line 158. -/
def conservativeTotalBytes (s : ProgressState) : Int :=
  wrapInt64 (s.sourceSize - goneBytes s)

/-- The value `leftBytes` of push.go line 160. -/
def leftBytes (s : ProgressState) : Int :=
  wrapInt64 (conservativeTotalBytes s - uploadedBytes s)

/-- The closure `updateProgress` (push.go 150-176). -/
def updateProgress (s : ProgressState) : ProgressReport :=
  let label :=
    if leftBytes s > 10 * 1024 then
      ProgressLabel.left
        (if s.bytesPerSec > 1 then NetStatus.rate s.bytesPerSec else NetStatus.idle)
        (leftBytes s)
    else ProgressLabel.almostThere
  let conservativeProgress := Float64.divInt (uploadedBytes s) (conservativeTotalBytes s)
  let conservativeProgress := Butler.min (Float64.fin 1) conservativeProgress
  { label := label
    progress := conservativeProgress
    scale := Float64.divInt s.readBytes s.sourceSize }

/-! ## The periodic sampler (push.go 178-190) -/

/-- The variables of `doPush` that the sampler reads when a tick comes. -/
structure Counters where
  /-- The field `sourceContainer.Size`. -/
  sourceSize : Int
  /-- The variable `readBytes`. -/
  readBytes : Int
  /-- The field `patchWriter.TotalBytes`. -/
  totalBytes : Int
  /-- The field `patchWriter.UploadedBytes`. -/
  uploadedBytes : Int
  deriving DecidableEq

/-- The case of the `select` of push.go 181-188 that is taken in one turn of
the loop. -/
inductive SelectCase where
  /-- The case `<-ticker.C`, with the counters at that moment. -/
  | tick (now : Counters)
  /-- The case `<-stopTicking`, ready once the channel is closed. -/
  | stop
  deriving DecidableEq

/-- The variables the sampler writes. -/
structure SamplerState where
  bytesPerSec : ℚ
  lastUploadedBytes : Int
  deriving DecidableEq

/-- The values of push.go 146-147 before the sampler starts. -/
def SamplerState.initial : SamplerState := ⟨0, 0⟩

/-- How the body of a `for` loop ends: the next turn follows, or the loop
is left. -/
inductive LoopControl where
  | next
  | leave
  deriving DecidableEq

/-- One turn of the sampler's `for` loop (push.go 181-188): the new state,
the report of `updateProgress` if it ran, and how the turn ends.  The
`break` of line 187 ends the `select` statement it stands in, and the turn
with it; the loop goes on. -/
def samplerBody (st : SamplerState) : SelectCase → SamplerState × Option ProgressReport × LoopControl
  | SelectCase.tick now =>
    let bytesPerSec : ℚ :=
      (roundFloat64 (wrapInt64 (now.uploadedBytes - st.lastUploadedBytes)) : ℚ) / 2
    (⟨bytesPerSec, now.uploadedBytes⟩,
      some (updateProgress
        ⟨now.sourceSize, now.readBytes, now.totalBytes, now.uploadedBytes, bytesPerSec⟩),
      LoopControl.next)
  | SelectCase.stop => (st, none, LoopControl.next)

/-- The sampler task (push.go 178-190) over the cases its `select` takes, in
order: the reports of its calls of `updateProgress`, and whether it has
left its loop. -/
def sampler : SamplerState → List SelectCase → List ProgressReport × Bool
  | _, [] => ([], false)
  | st, c :: cs =>
    match samplerBody st c with
    | (st', report, LoopControl.next) =>
      let r := sampler st' cs
      (report.toList ++ r.1, r.2)
    | (_, report, LoopControl.leave) => (report.toList, true)

/-! ## MSI uninstall (`Manager.Uninstall`, installer/msi/uninstall.go 8-49) -/

/-- The part of the receipt that `Uninstall` reads. -/
structure Receipt where
  MSIProductCode : String
  deriving DecidableEq, Repr

/-- The part of the result of `installer.RunSelf` that `Uninstall` reads. -/
structure RunSelfResult where
  ExitCode : Int
  deriving DecidableEq, Repr

/-- The answers of what `Uninstall` calls. -/
structure UninstallWorld where
  /-- The call `installer.RunSelf(consumer, args)`. -/
  runSelf : List String → Except GoError RunSelfResult
  /-- The call `shouldTryElevated(consumer, res)`, which is not part of the
  sources at hand. -/
  shouldTryElevated : RunSelfResult → Bool

/-- The method `Manager.Uninstall`: the argument lists of the self-runs it
makes, in order, and the error it returns (`none` is `nil`). -/
def Uninstall (w : UninstallWorld) (receipt : Option Receipt) :
    List (List String) × Option GoError :=
  match receipt with
  | none => ([], some (New "Missing receipt, don't know what to uninstall"))
  | some receipt =>
    if receipt.MSIProductCode = "" then
      ([], some (New "Missing product code in receipt, don't know what to uninstall"))
    else
      let args := ["msi-uninstall", receipt.MSIProductCode]
      match w.runSelf args with
      | Except.error err => ([args], some (Wrap err))
      | Except.ok res =>
        if res.ExitCode ≠ 0 then
          if w.shouldTryElevated res then
            let args2 := args ++ ["--elevate"]
            match w.runSelf args2 with
            | Except.error err => ([args, args2], some (Wrap err))
            | Except.ok res2 =>
              if res2.ExitCode ≠ 0 then
                ([args, args2], some (New
                  "Elevated MSI installation failed, this package is probably not compatible"))
              else ([args, args2], none)
          else ([args], none)
        else ([args], none)

/-- The exit codes of the self-runs `Uninstall` makes that end with a
result, in order. -/
def exitCodes (w : UninstallWorld) (runs : List (List String)) : List Int :=
  runs.filterMap (fun args =>
    match w.runSelf args with
    | Except.ok res => some res.ExitCode
    | Except.error _ => none)

/-! ## Ranges of byte counts -/

/-- Every byte count of the state lies between 0 and `bound`. -/
@[reducible] def countsWithin (bound : Int) (s : ProgressState) : Prop :=
  (0 ≤ s.sourceSize ∧ s.sourceSize ≤ bound) ∧ (0 ≤ s.readBytes ∧ s.readBytes ≤ bound) ∧
  (0 ≤ s.totalBytes ∧ s.totalBytes ≤ bound) ∧ (0 ≤ s.uploadedBytes ∧ s.uploadedBytes ≤ bound)

/-! ## Sample inputs -/

/-- A world in which every call succeeds and a first build is pushed. -/
def sampleWorld : World where
  toLower := fun s => s
  walk := Except.ok ⟨1000, [("game.bin", 1000)]⟩
  authenticateViaOauth := none
  createBuild := fun _ _ _ => Except.ok ⟨7, 0⟩
  listBuildFiles := fun _ => Except.ok []
  downloadBuildFile := fun _ _ => Except.ok 0
  readSignature := fun _ => Except.ok (Container.empty, [])
  createFile := fun k =>
    { createBuildFile :=
        (⟨⟨if k = BuildFileType.PATCH then 11 else 12, "https://upload", [("k", "v")]⟩⟩, none)
      newRequest := fun _ => none
      httpDo := fun _ _ => (some ⟨201, "https://session"⟩, none) }
  createSchedule := []
  newResumableUpload := fun _ _ => (true, none)
  writePatch := fun _ _ _ => none
  uploadSignals := [Signal.done, Signal.done, Signal.done, Signal.done]
  patchCount := 300
  signatureCount := 40
  finalizeBuildFile := fun _ _ _ => none
  finalizeSchedule := []

/-- The sample world in which `CreateBuildFile` fails for the signature
kind with a transport error (Scenario C). -/
def scenarioC : World :=
  { sampleWorld with
    createFile := fun k =>
      if k = BuildFileType.SIGNATURE then
        { createBuildFile := (NewBuildFileResponse.zero, some (GoError.external 1))
          newRequest := fun _ => none
          httpDo := fun _ _ => (none, some (GoError.external 2)) }
      else sampleWorld.createFile k }

/-- The sample world in which only the two `doClose` tasks signal on the
upload channels. -/
def twoSignalsWorld : World :=
  { sampleWorld with uploadSignals := [doClose none, doClose none] }

/-- The sample world in which the bootstrap request of the signature task
fails in transport, so that `HTTPClient.Do` hands back a nil response, and
in which the signature task makes `moves` moves before `createBothFiles`
returns. -/
def transportFailsWorld (moves : Nat) : World :=
  { sampleWorld with
    createFile := fun k =>
      if k = BuildFileType.SIGNATURE then
        { createBuildFile := (⟨⟨12, "https://upload", [("k", "v")]⟩⟩, none)
          newRequest := fun _ => none
          httpDo := fun _ _ => (none, some (GoError.external 2)) }
      else sampleWorld.createFile k
    createSchedule := List.replicate moves false }

/-- Scenario C with the schedule in which the PATCH task assigns `err`
between the assignment and the test of the SIGNATURE task. -/
def scenarioCRace : World :=
  { scenarioC with createSchedule := [false, true, false, false, false] }

/-- The sample world in which finalizing the patch file (ID 11) fails, with
the given order of the moves of the two `doFinalize` tasks. -/
def finalizeFailsWorld (sched : List Bool) : World :=
  { sampleWorld with
    finalizeBuildFile := fun _ fileID _ =>
      if fileID = 11 then some (GoError.external 9) else none
    finalizeSchedule := sched }

/-- A progress state: half of a 100-byte source read, 10 patch bytes
offered, 10 confirmed. -/
def progressEarly : ProgressState := ⟨100, 50, 10, 10, 0⟩

/-- The state after `progressEarly` once 30 more patch bytes were offered. -/
def progressOffered : ProgressState := ⟨100, 50, 40, 10, 0⟩

/-- The state after `progressEarly` once 20 more bytes were read and 5 more
confirmed. -/
def progressRead : ProgressState := ⟨100, 70, 10, 15, 0⟩

/-- A progress state with a source and a patch of `2^63 - 1` bytes each, none
of the source read yet and one byte confirmed. -/
def progressWrapped : ProgressState :=
  ⟨9223372036854775807, 0, 9223372036854775807, 1, 0⟩

/-- A progress state at the end of a push in which every count is
`2^53 + 3`. -/
def progressBeyondExact : ProgressState :=
  ⟨9007199254740995, 9007199254740995, 9007199254740995, 9007199254740995, 0⟩

/-- A progress state at the end of a push: the 100-byte source is read, the
40 patch bytes offered are all confirmed. -/
def progressComplete : ProgressState := ⟨100, 100, 40, 40, 0⟩

/-- Counters late in a push: 90 of the 100 offered patch bytes confirmed. -/
def countersLate : Counters := ⟨1000, 1000, 100, 90⟩

/-- An uninstall in which the plain self-run exits with code 1603 and no
elevated run is called for. -/
def uninstallFails : UninstallWorld where
  runSelf := fun _ => Except.ok ⟨1603⟩
  shouldTryElevated := fun _ => false

/-! ## Facts about splitting -/

theorem splitChars_length (sep : Char) (cs : List Char) :
    (splitChars sep cs).length = cs.count sep + 1 := by
  induction cs with
  | nil => simp [splitChars]
  | cons c cs ih =>
    by_cases h : c = sep
    · subst h
      simp [splitChars, ih]
    · have hne : (splitChars sep cs) ≠ [] := by
        intro h0
        rw [h0] at ih
        simp at ih
      obtain ⟨t, ts, hts⟩ := List.exists_cons_of_ne_nil hne
      have hb : (c == sep) = false := by simpa using h
      simp only [splitChars, h, if_false, hts, List.length_cons, List.count_cons, hb]
      rw [hts] at ih
      simpa using ih

theorem stringsSplitColon_length (spec : String) :
    (stringsSplitColon spec).length = colonCount spec + 1 := by
  simp [stringsSplitColon, colonCount, splitChars_length]

theorem parseSpec_ok_iff (spec : String) :
    (parseSpec spec).2.2 = none ↔ colonCount spec = 1 := by
  have hlen := stringsSplitColon_length spec
  unfold parseSpec
  simp only []
  by_cases h1 : (stringsSplitColon spec).length = 1
  · simp [h1]
    omega
  · by_cases h2 : (stringsSplitColon spec).length = 2
    · simp [h2]
      omega
    · simp [h1, h2]
      omega

/-! ## C1 -/

/-- C1 (as stated, refuted): the spec `":"` has exactly one separator but
both tokens are empty, and `parseSpec` accepts it; so do `"a:"` and `":b"`. -/
theorem C1_counterexample :
    (parseSpec ":" = ("", "", none) ∧ parseSpec "a:" = ("a", "", none) ∧
      parseSpec ":b" = ("", "b", none)) ∧
    ¬ ∃ a b : String, a ≠ "" ∧ b ≠ "" ∧ ":" = a ++ ":" ++ b := by
  refine ⟨by decide, ?_⟩
  rintro ⟨a, b, ha, _, h⟩
  have hl := congrArg String.length h
  simp only [String.length_append] at hl
  have h1 : (":" : String).length = 1 := by decide
  rw [h1] at hl
  have h0 : a.length = 0 := by omega
  apply ha
  have hd : a.data = [] := List.length_eq_zero.mp h0
  exact String.ext hd

/-- C1 (amended): `parseSpec` returns a nil error exactly for the specs that
contain one `:`; the tokens on either side of it may be empty. -/
theorem C1_parseSpec_succeeds_iff_one_colon (spec : String) :
    (parseSpec spec).2.2 = none ↔ colonCount spec = 1 :=
  parseSpec_ok_iff spec

/-! ## C2 -/

theorem missingChannelMsg_getLast (spec : String) :
    (missingChannelMsg spec).data.getLast? = some ')' := by
  have h : missingChannelMsg spec =
      ("invalid spec: " ++ spec ++ ", missing channel (examples: " ++ spec ++
        ":windows-32-beta, " ++ spec ++ ":linux-64") ++ ")" := by
    have hl : (":linux-64)" : String) = ":linux-64" ++ ")" := by decide
    simp only [missingChannelMsg, hl, String.append_assoc]
  have hd : (")" : String).data = [')'] := by decide
  rw [h, String.data_append, hd, List.getLast?_concat]

theorem invalidSpecMsg_getLast (spec : String) :
    (invalidSpecMsg spec).data.getLast? = some 'l' := by
  have h : invalidSpecMsg spec =
      ("invalid spec: " ++ spec ++ ", expected something of the form user/page:channe") ++
        "l" := by
    have hl : (", expected something of the form user/page:channel" : String) =
        ", expected something of the form user/page:channe" ++ "l" := by decide
    simp only [invalidSpecMsg, hl, String.append_assoc]
  have hd : ("l" : String).data = ['l'] := by decide
  rw [h, String.data_append, hd, List.getLast?_concat]

theorem invalidSpecMsg_ne_missingChannelMsg (s t : String) :
    invalidSpecMsg s ≠ missingChannelMsg t := by
  intro h
  have h1 := invalidSpecMsg_getLast s
  rw [h, missingChannelMsg_getLast] at h1
  exact absurd h1 (by decide)

/-- C2: a spec without `:` fails with the missing-channel diagnostic, which
contains the two example usages built from the spec; a spec with two or
more `:` fails with the generic diagnostic, which is the missing-channel
diagnostic of no spec. -/
theorem C2_parseSpec_diagnostic_by_separator_count (spec : String) :
    (colonCount spec = 0 →
      parseSpec spec = ("", "", some (GoError.errorf (missingChannelMsg spec))) ∧
      (∃ pre post, missingChannelMsg spec = pre ++ (spec ++ ":windows-32-beta") ++ post) ∧
      (∃ pre post, missingChannelMsg spec = pre ++ (spec ++ ":linux-64") ++ post)) ∧
    (2 ≤ colonCount spec →
      parseSpec spec = ("", "", some (GoError.errorf (invalidSpecMsg spec))) ∧
      ∀ t, (parseSpec spec).2.2 ≠ some (GoError.errorf (missingChannelMsg t))) := by
  have hlen := stringsSplitColon_length spec
  constructor
  · intro h0
    have h1 : (stringsSplitColon spec).length = 1 := by omega
    refine ⟨by simp [parseSpec, h1], ?_, ?_⟩
    · refine ⟨"invalid spec: " ++ spec ++ ", missing channel (examples: ",
        ", " ++ spec ++ ":linux-64)", ?_⟩
      have hl : (":windows-32-beta, " : String) = ":windows-32-beta" ++ ", " := by decide
      simp only [missingChannelMsg, hl, String.append_assoc]
    · refine ⟨"invalid spec: " ++ spec ++ ", missing channel (examples: " ++ spec ++
        ":windows-32-beta, ", ")", ?_⟩
      have hl : (":linux-64)" : String) = ":linux-64" ++ ")" := by decide
      simp only [missingChannelMsg, hl, String.append_assoc]
  · intro h2
    have h1 : (stringsSplitColon spec).length ≠ 1 := by omega
    have h3 : (stringsSplitColon spec).length ≠ 2 := by omega
    have hp : parseSpec spec = ("", "", some (GoError.errorf (invalidSpecMsg spec))) := by
      simp [parseSpec, h1, h3]
    refine ⟨hp, ?_⟩
    intro t ht
    rw [hp] at ht
    simp only [Option.some.injEq, GoError.errorf.injEq] at ht
    exact invalidSpecMsg_ne_missingChannelMsg spec t ht

/-- C2 at the specs `"foo"` (no separator) and `"a:b:c"` (two separators). -/
theorem C2_parseSpec_diagnostic_witness :
    parseSpec "foo" = ("", "", some (GoError.errorf
      "invalid spec: foo, missing channel (examples: foo:windows-32-beta, foo:linux-64)")) ∧
    parseSpec "a:b:c" = ("", "", some (GoError.errorf
      "invalid spec: a:b:c, expected something of the form user/page:channel")) :=
  ⟨((C2_parseSpec_diagnostic_by_separator_count "foo").1 (by decide)).1,
   ((C2_parseSpec_diagnostic_by_separator_count "a:b:c").2 (by decide)).1⟩

/-! ## C3 -/

theorem parseSpec_error_is_errorf (spec target channel : String) (e : GoError)
    (h : parseSpec spec = (target, channel, some e)) : ∃ msg, e = GoError.errorf msg := by
  unfold parseSpec at h
  simp only [] at h
  split at h
  · simp only [Prod.mk.injEq, Option.some.injEq] at h
    exact ⟨_, h.2.2.symm⟩
  · split at h
    · simp only [Prod.mk.injEq, Option.some.injEq] at h
      exact ⟨_, h.2.2.symm⟩
    · simp at h

/-- C3: when `parseSpec` fails on the lower-cased spec, `doPush` returns that
error wrapped, and all it has done before is launch the scan of the local
source: no action of its trace talks to the network. -/
theorem C3_malformed_spec_aborts_before_network (w : World)
    (buildPath spec userVersion : String) (fixPerms : Bool) (e : GoError)
    (h : (parseSpec (w.toLower spec)).2.2 = some e) :
    doPush w buildPath spec userVersion fixPerms =
      ([Action.goDoWalk buildPath fixPerms], Outcome.returned (some (GoError.wrap e))) ∧
    ∀ a ∈ (doPush w buildPath spec userVersion fixPerms).1, a.isRemote = false := by
  have hd : doPush w buildPath spec userVersion fixPerms =
      ([Action.goDoWalk buildPath fixPerms], Outcome.returned (some (GoError.wrap e))) := by
    unfold doPush
    rcases hp : parseSpec (w.toLower spec) with ⟨target, channel, err⟩
    rw [hp] at h
    simp only at h
    subst h
    obtain ⟨msg, hmsg⟩ := parseSpec_error_is_errorf _ _ _ _ hp
    subst hmsg
    simp only [hp, Wrap]
  refine ⟨hd, ?_⟩
  rw [hd]
  intro a ha
  simp only [List.mem_singleton] at ha
  subst ha
  rfl

/-- C3 at the spec `"foo"`, which has no channel. -/
theorem C3_malformed_spec_witness :
    (parseSpec (sampleWorld.toLower "foo")).2.2 =
      some (GoError.errorf (missingChannelMsg "foo")) ∧
    doPush sampleWorld "dist" "foo" "1.0" false =
      ([Action.goDoWalk "dist" false],
        Outcome.returned (some (GoError.wrap (GoError.errorf (missingChannelMsg "foo"))))) :=
  ⟨by decide,
   (C3_malformed_spec_aborts_before_network sampleWorld "dist" "foo" "1.0" false
      (GoError.errorf (missingChannelMsg "foo")) (by decide)).1⟩

/-! ## C4 -/

theorem Tasks.drain_stuck {τ κ δ : Type} (prog : Bool → Option GoError → τ → Move τ δ)
    (rc : Receiver κ δ) (fuel : Nat) (m : Tasks τ κ)
    (h1 : m.step prog rc true = none) (h2 : m.step prog rc false = none) :
    Tasks.drain prog rc fuel m = m := by
  cases fuel with
  | zero => rfl
  | succ n => simp [Tasks.drain, h1, h2]

theorem Tasks.run_stuck {τ κ δ : Type} (prog : Bool → Option GoError → τ → Move τ δ)
    (rc : Receiver κ δ) (fuel : Nat) (sched : List Bool) (m : Tasks τ κ)
    (h1 : m.step prog rc true = none) (h2 : m.step prog rc false = none) :
    Tasks.run prog rc fuel sched m = m := by
  cases sched with
  | nil => exact Tasks.drain_stuck prog rc fuel m h1 h2
  | cons b s => cases b <;> simp [Tasks.run, h1, h2]

theorem createBothFiles_receiver_waiting (c : BothFilesLoop) :
    createBothFiles_receiver.waiting c = (!c.returned && decide (c.i < 2)) := rfl

theorem createBothFiles_receiver_recvDone (c : BothFilesLoop) (slot : fileSlot) :
    createBothFiles_receiver.recvDone c slot =
      (match slot.Kind with
      | BuildFileType.PATCH =>
        { c with patch := slot.Response, i := c.i + 1, received := c.received ++ [slot] }
      | BuildFileType.SIGNATURE =>
        { c with signature := slot.Response, i := c.i + 1, received := c.received ++ [slot] }
      | BuildFileType.other _ =>
        { c with i := c.i + 1, received := c.received ++ [slot] }) := rfl

theorem createFile_bootstrap_success (w : CreateFileWorld) (res : NewBuildFileResponse)
    (g : HttpResponse) (h2 : w.newRequest res.File.UploadURL = none)
    (h3 : w.httpDo res.File.UploadURL res.File.UploadHeaders = (some g, none))
    (h4 : g.StatusCode = 201) :
    createFile_bootstrap w res = CreateFilePc.sendSlot res g := by
  simp [createFile_bootstrap, createFile_status, h2, h3, h4]

/-- C6: when both `createFile` tasks succeed, then under every schedule of
their moves (so for both orders of arrival of the two slots)
`createBothFiles` returns the PATCH task's response as `patch`, the
SIGNATURE task's response as `signature`, and a nil error; the schedules
`[true, true, true]` and `[false, false, false]` deliver the slots in the
two orders. -/
theorem C6_createBothFiles_keyed_by_kind (wP wS : CreateFileWorld) (sched : List Bool)
    (resP resS : NewBuildFileResponse) (gP gS : HttpResponse)
    (hP1 : wP.createBuildFile = (resP, none))
    (hP2 : wP.newRequest resP.File.UploadURL = none)
    (hP3 : wP.httpDo resP.File.UploadURL resP.File.UploadHeaders = (some gP, none))
    (hP4 : gP.StatusCode = 201)
    (hS1 : wS.createBuildFile = (resS, none))
    (hS2 : wS.newRequest resS.File.UploadURL = none)
    (hS3 : wS.httpDo resS.File.UploadURL resS.File.UploadHeaders = (some gS, none))
    (hS4 : gS.StatusCode = 201) :
    createBothFiles wP wS sched =
      some ⟨⟨⟨resP.File.ID, gP.Location, []⟩⟩, ⟨⟨resS.File.ID, gS.Location, []⟩⟩, none⟩ ∧
    (createBothFiles_run wP wS [true, true, true]).coord.received =
      [⟨BuildFileType.PATCH, ⟨⟨resP.File.ID, gP.Location, []⟩⟩⟩,
       ⟨BuildFileType.SIGNATURE, ⟨⟨resS.File.ID, gS.Location, []⟩⟩⟩] ∧
    (createBothFiles_run wP wS [false, false, false]).coord.received =
      [⟨BuildFileType.SIGNATURE, ⟨⟨resS.File.ID, gS.Location, []⟩⟩⟩,
       ⟨BuildFileType.PATCH, ⟨⟨resP.File.ID, gP.Location, []⟩⟩⟩] := by
  have bP := createFile_bootstrap_success wP resP gP hP2 hP3 hP4
  have bS := createFile_bootstrap_success wS resS gS hS2 hS3 hS4
  refine ⟨?_, ?_, ?_⟩
  · unfold createBothFiles createBothFiles_run
    rcases sched with _ | ⟨b1, _ | ⟨b2, _ | ⟨b3, _ | ⟨b4, _ | ⟨b5, _ | ⟨b6, s⟩⟩⟩⟩⟩⟩
    · simp [Tasks.run, Tasks.drain, Tasks.step, Tasks.put, drainFuel, createFile,
        createBothFiles_receiver_waiting, createBothFiles_receiver_recvDone, hP1, hS1, bP, bS]
    · cases b1 <;>
      simp [Tasks.run, Tasks.drain, Tasks.step, Tasks.put, drainFuel, createFile,
        createBothFiles_receiver_waiting, createBothFiles_receiver_recvDone, hP1, hS1, bP, bS]
    · cases b1 <;> cases b2 <;>
      simp [Tasks.run, Tasks.drain, Tasks.step, Tasks.put, drainFuel, createFile,
        createBothFiles_receiver_waiting, createBothFiles_receiver_recvDone, hP1, hS1, bP, bS]
    · cases b1 <;> cases b2 <;> cases b3 <;>
      simp [Tasks.run, Tasks.drain, Tasks.step, Tasks.put, drainFuel, createFile,
        createBothFiles_receiver_waiting, createBothFiles_receiver_recvDone, hP1, hS1, bP, bS]
    · cases b1 <;> cases b2 <;> cases b3 <;> cases b4 <;>
      simp [Tasks.run, Tasks.drain, Tasks.step, Tasks.put, drainFuel, createFile,
        createBothFiles_receiver_waiting, createBothFiles_receiver_recvDone, hP1, hS1, bP, bS]
    · cases b1 <;> cases b2 <;> cases b3 <;> cases b4 <;> cases b5 <;>
      simp [Tasks.run, Tasks.drain, Tasks.step, Tasks.put, drainFuel, createFile,
        createBothFiles_receiver_waiting, createBothFiles_receiver_recvDone, hP1, hS1, bP, bS]
    · cases b1 <;> cases b2 <;> cases b3 <;> cases b4 <;> cases b5 <;> cases b6 <;>
      simp [Tasks.run, Tasks.drain, Tasks.step, Tasks.put, drainFuel, createFile,
        createBothFiles_receiver_waiting, createBothFiles_receiver_recvDone, Tasks.run_stuck,
        hP1, hS1, bP, bS]
  · simp [createBothFiles_run, Tasks.run, Tasks.drain, Tasks.step, Tasks.put, drainFuel,
      createFile, createBothFiles_receiver_waiting, createBothFiles_receiver_recvDone, hP1, hS1,
      bP, bS]
  · simp [createBothFiles_run, Tasks.run, Tasks.drain, Tasks.step, Tasks.put, drainFuel,
      createFile, createBothFiles_receiver_waiting, createBothFiles_receiver_recvDone, hP1, hS1,
      bP, bS]

/-- C6 in the sample world, the signature slot arriving first. -/
theorem C6_createBothFiles_witness :
    createBothFiles (sampleWorld.createFile BuildFileType.PATCH)
        (sampleWorld.createFile BuildFileType.SIGNATURE) [false, false] =
      some ⟨⟨⟨11, "https://session", []⟩⟩, ⟨⟨12, "https://session", []⟩⟩, none⟩ :=
  (C6_createBothFiles_keyed_by_kind (sampleWorld.createFile BuildFileType.PATCH)
    (sampleWorld.createFile BuildFileType.SIGNATURE) [false, false]
    ⟨⟨11, "https://upload", [("k", "v")]⟩⟩ ⟨⟨12, "https://upload", [("k", "v")]⟩⟩
    ⟨201, "https://session"⟩ ⟨201, "https://session"⟩
    rfl rfl rfl rfl rfl rfl rfl rfl).1

/-! ## C7 -/

/-- C7 (the code at the failing inputs): the bootstrap request of the
signature task fails in transport.  When the task makes four moves before
`doPush` returns, the fourth is the dereference of the nil response at line
329 and the process panics: `doPush` returns no failure.  With three moves
`doPush` returns the transport error.  In Scenario C `doPush` returns the
registration error when the SIGNATURE task tests `err` right after assigning
it; when the PATCH task assigns `err` in between, the registration error is
lost and the process panics at line 329 as well. -/
theorem C7_failed_bootstrap_can_panic :
    ((transportFailsWorld 4).createFile BuildFileType.SIGNATURE).httpDo "https://upload"
        [("k", "v")] = (none, some (GoError.external 2)) ∧
    doPush (transportFailsWorld 4) "dist" "user/game:linux" "1.0" false =
      ([Action.goDoWalk "dist" false, Action.authenticateViaOauth,
        Action.createBuild "user/game" "linux" "1.0",
        Action.goCreateFile 7 BuildFileType.PATCH,
        Action.goCreateFile 7 BuildFileType.SIGNATURE],
        Outcome.panicked) ∧
    doPush (transportFailsWorld 3) "dist" "user/game:linux" "1.0" false =
      ([Action.goDoWalk "dist" false, Action.authenticateViaOauth,
        Action.createBuild "user/game" "linux" "1.0",
        Action.goCreateFile 7 BuildFileType.PATCH,
        Action.goCreateFile 7 BuildFileType.SIGNATURE],
        Outcome.returned (some (GoError.wrap (GoError.external 2)))) ∧
    (scenarioCRace.createFile BuildFileType.SIGNATURE).createBuildFile =
      (NewBuildFileResponse.zero, some (GoError.external 1)) ∧
    doPush scenarioC "dist" "user/game:linux" "1.0" false =
      ([Action.goDoWalk "dist" false, Action.authenticateViaOauth,
        Action.createBuild "user/game" "linux" "1.0",
        Action.goCreateFile 7 BuildFileType.PATCH,
        Action.goCreateFile 7 BuildFileType.SIGNATURE],
        Outcome.returned (some (GoError.wrap (GoError.external 1)))) ∧
    doPush scenarioCRace "dist" "user/game:linux" "1.0" false =
      ([Action.goDoWalk "dist" false, Action.authenticateViaOauth,
        Action.createBuild "user/game" "linux" "1.0",
        Action.goCreateFile 7 BuildFileType.PATCH,
        Action.goCreateFile 7 BuildFileType.SIGNATURE],
        Outcome.panicked) := by
  refine ⟨by decide, by decide, by decide, by decide, by decide, by decide⟩

/-! ## C8 -/

/-- C8 (as stated, refuted): after the completion signals of the two
`doClose` tasks, one per sink, the close loop has not left: it waits for
further signals, and a push that only ever gets these two never reaches
`close(stopTicking)` or a finalize call. -/
theorem C8_counterexample :
    awaitSignals uploadCloseCount [doClose none, doClose none] = Await.blocked ∧
    doPush twoSignalsWorld "dist" "user/game:linux" "1.0" false =
      ([Action.goDoWalk "dist" false, Action.authenticateViaOauth,
        Action.createBuild "user/game" "linux" "1.0",
        Action.goCreateFile 7 BuildFileType.PATCH,
        Action.goCreateFile 7 BuildFileType.SIGNATURE,
        Action.newResumableUpload "https://session",
        Action.newResumableUpload "https://session",
        Action.goSampler, Action.writePatch,
        Action.goDoClose BuildFileType.PATCH, Action.goDoClose BuildFileType.SIGNATURE],
        Outcome.blocked) := by
  constructor <;> decide

/-- C8 (amended): on a sequence of upload signals without an error, the
close loop leaves exactly when 4 completion signals have been received: it
takes the first 4 and no further one, and with fewer than 4 it keeps
waiting. -/
theorem C8_upload_close_loop_takes_four (sigs : List Signal)
    (h : ∀ s ∈ sigs, s = Signal.done) :
    (4 ≤ sigs.length → awaitSignals uploadCloseCount sigs = Await.proceeded (sigs.drop 4)) ∧
    (sigs.length < 4 → awaitSignals uploadCloseCount sigs = Await.blocked) := by
  have key : ∀ (n : Nat) (l : List Signal), (∀ s ∈ l, s = Signal.done) →
      (n ≤ l.length → awaitSignals n l = Await.proceeded (l.drop n)) ∧
      (l.length < n → awaitSignals n l = Await.blocked) := by
    intro n
    induction n with
    | zero =>
      intro l _
      exact ⟨fun _ => by simp [awaitSignals], fun hlt => absurd hlt (Nat.not_lt_zero _)⟩
    | succ n ih =>
      intro l hl
      cases l with
      | nil => exact ⟨fun hle => absurd hle (by simp), fun _ => rfl⟩
      | cons x xs =>
        have hx : x = Signal.done := hl x (List.mem_cons_self _ _)
        subst hx
        have ih' := ih xs (fun s hs => hl s (List.mem_cons_of_mem _ hs))
        constructor
        · intro hle
          simp only [awaitSignals, List.drop_succ_cons]
          exact ih'.1 (by simpa using hle)
        · intro hlt
          simp only [awaitSignals]
          exact ih'.2 (by simpa using hlt)
  exact key 4 sigs h

/-- C8 (amended) on five and on three completion signals. -/
theorem C8_upload_close_loop_witness :
    awaitSignals uploadCloseCount
        [Signal.done, Signal.done, Signal.done, Signal.done, Signal.done] =
      Await.proceeded [Signal.done] ∧
    awaitSignals uploadCloseCount [Signal.done, Signal.done, Signal.done] = Await.blocked :=
  ⟨(C8_upload_close_loop_takes_four
      [Signal.done, Signal.done, Signal.done, Signal.done, Signal.done]
      (by decide)).1 (by decide),
   (C8_upload_close_loop_takes_four [Signal.done, Signal.done, Signal.done]
      (by decide)).2 (by decide)⟩

/-! ## C9 -/

theorem finalizeReceiver_waiting (c : FinalizeLoop) :
    finalizeReceiver.waiting c = (c.failure.isNone && decide (c.i < finalizeCount)) := rfl

theorem finalizeReceiver_recvDone (c : FinalizeLoop) (d : Unit) :
    finalizeReceiver.recvDone c d = { c with i := c.i + 1 } := rfl

/-- When both `FinalizeBuildFile` calls succeed, the end of `doPush` returns
nil under every schedule of the two finalize tasks. -/
theorem doPush_finalize_both_succeed (w : World) (buildID : Int)
    (newPatchRes newSignatureRes : NewBuildFileResponse)
    (hp : w.finalizeBuildFile buildID newPatchRes.File.ID w.patchCount = none)
    (hs : w.finalizeBuildFile buildID newSignatureRes.File.ID w.signatureCount = none) :
    (doPush_finalize w buildID newPatchRes newSignatureRes).2 = Outcome.returned none := by
  unfold doPush_finalize doPush_finalizeRun
  rcases w.finalizeSchedule with _ | ⟨b1, _ | ⟨b2, _ | ⟨b3, _ | ⟨b4, _ | ⟨b5, _ | ⟨b6, s⟩⟩⟩⟩⟩⟩
  · simp [Tasks.run, Tasks.drain, Tasks.step, Tasks.put, drainFuel, doFinalize,
      finalizeReceiver_waiting, finalizeReceiver_recvDone, finalizeCount, hp, hs]
  · cases b1 <;>
    simp [Tasks.run, Tasks.drain, Tasks.step, Tasks.put, drainFuel, doFinalize,
      finalizeReceiver_waiting, finalizeReceiver_recvDone, finalizeCount, hp, hs]
  · cases b1 <;> cases b2 <;>
    simp [Tasks.run, Tasks.drain, Tasks.step, Tasks.put, drainFuel, doFinalize,
      finalizeReceiver_waiting, finalizeReceiver_recvDone, finalizeCount, hp, hs]
  · cases b1 <;> cases b2 <;> cases b3 <;>
    simp [Tasks.run, Tasks.drain, Tasks.step, Tasks.put, drainFuel, doFinalize,
      finalizeReceiver_waiting, finalizeReceiver_recvDone, finalizeCount, hp, hs]
  · cases b1 <;> cases b2 <;> cases b3 <;> cases b4 <;>
    simp [Tasks.run, Tasks.drain, Tasks.step, Tasks.put, drainFuel, doFinalize,
      finalizeReceiver_waiting, finalizeReceiver_recvDone, finalizeCount, hp, hs]
  · cases b1 <;> cases b2 <;> cases b3 <;> cases b4 <;> cases b5 <;>
    simp [Tasks.run, Tasks.drain, Tasks.step, Tasks.put, drainFuel, doFinalize,
      finalizeReceiver_waiting, finalizeReceiver_recvDone, finalizeCount, hp, hs]
  · cases b1 <;> cases b2 <;> cases b3 <;> cases b4 <;> cases b5 <;> cases b6 <;>
    simp [Tasks.run, Tasks.drain, Tasks.step, Tasks.put, drainFuel, doFinalize,
      finalizeReceiver_waiting, finalizeReceiver_recvDone, finalizeCount, Tasks.run_stuck,
      hp, hs]

/-- C9 (the code at the failing input): finalizing the patch file fails and
finalizing the signature file succeeds.  The patch task assigns its error to
`err`, the signature task assigns `nil` to the same variable, and the patch
task then tests `err`: both tasks send on `finalDone` and `doPush` returns
nil.  When the patch task tests before the other task assigns, `doPush`
returns the error. -/
theorem C9_failed_finalize_reported_as_success :
    (finalizeFailsWorld [true, false, true]).finalizeBuildFile 7 11 300 =
      some (GoError.external 9) ∧
    (finalizeFailsWorld [true, false, true]).finalizeBuildFile 7 12 40 = none ∧
    doPush (finalizeFailsWorld [true, false, true]) "dist" "user/game:linux" "1.0" false =
      ([Action.goDoWalk "dist" false, Action.authenticateViaOauth,
        Action.createBuild "user/game" "linux" "1.0",
        Action.goCreateFile 7 BuildFileType.PATCH,
        Action.goCreateFile 7 BuildFileType.SIGNATURE,
        Action.newResumableUpload "https://session",
        Action.newResumableUpload "https://session",
        Action.goSampler, Action.writePatch,
        Action.goDoClose BuildFileType.PATCH, Action.goDoClose BuildFileType.SIGNATURE,
        Action.closeStopTicking, Action.goDoFinalize 7 11 300, Action.goDoFinalize 7 12 40],
        Outcome.returned none) ∧
    (doPush (finalizeFailsWorld [true, true]) "dist" "user/game:linux" "1.0" false).2 =
      Outcome.returned (some (GoError.wrap (GoError.external 9))) := by
  refine ⟨by decide, by decide, by decide, by decide⟩

/-! ## Exact ranges of the machine arithmetic -/

theorem wrapInt64_of_range (n : Int) (h1 : -9223372036854775808 ≤ n)
    (h2 : n < 9223372036854775808) : wrapInt64 n = n := by
  unfold wrapInt64
  omega

theorem roundFloat64_of_small (n : Int) (h1 : -9007199254740992 ≤ n)
    (h2 : n ≤ 9007199254740992) : roundFloat64 n = n := by
  by_cases hlt : n.natAbs < 9007199254740992
  · have he : dropBits 11 0 n.natAbs = 0 := by
      simp [dropBits, hlt]
    unfold roundFloat64
    simp only [he, pow_zero, Nat.div_one, Nat.mod_one, Nat.mul_zero, Nat.mul_one]
    have hc : ¬ (1 < 0 ∨ (0 = 1 ∧ n.natAbs % 2 = 1)) := by omega
    rw [if_neg hc]
    split <;> omega
  · have : n = 9007199254740992 ∨ n = -9007199254740992 := by omega
    rcases this with h | h <;> subst h <;> decide

/-- For counts between 0 and `2^53` the values of push.go 151-160 are the
exact ones: no subtraction wraps and the round trip through `float64`
changes nothing. -/
theorem progress_values_exact (s : ProgressState) (h : countsWithin (2 ^ 53) s) :
    uploadedBytes s = s.uploadedBytes ∧
    goneBytes s = s.readBytes - s.totalBytes ∧
    conservativeTotalBytes s = s.sourceSize - (s.readBytes - s.totalBytes) ∧
    leftBytes s = s.sourceSize - (s.readBytes - s.totalBytes) - s.uploadedBytes := by
  obtain ⟨⟨hS0, hS⟩, ⟨hR0, hR⟩, ⟨hT0, hT⟩, ⟨hU0, hU⟩⟩ := h
  norm_num at hS hR hT hU
  have hu : uploadedBytes s = s.uploadedBytes := by
    unfold uploadedBytes int64OfFloat64
    rw [roundFloat64_of_small _ (by omega) (by omega), wrapInt64_of_range _ (by omega) (by omega)]
  have hg : goneBytes s = s.readBytes - s.totalBytes := by
    unfold goneBytes
    rw [wrapInt64_of_range _ (by omega) (by omega)]
  have hc : conservativeTotalBytes s = s.sourceSize - (s.readBytes - s.totalBytes) := by
    unfold conservativeTotalBytes
    rw [hg, wrapInt64_of_range _ (by omega) (by omega)]
  refine ⟨hu, hg, hc, ?_⟩
  unfold leftBytes
  rw [hc, hu, wrapInt64_of_range _ (by omega) (by omega)]

theorem progress_of_exact (s : ProgressState) (u d : Int)
    (hu : uploadedBytes s = u) (hd : conservativeTotalBytes s = d)
    (hu1 : -9007199254740992 ≤ u) (hu2 : u ≤ 9007199254740992)
    (hd1 : -9007199254740992 ≤ d) (hd2 : d ≤ 9007199254740992) (hd0 : d ≠ 0) :
    (updateProgress s).progress = Float64.fin (Min.min 1 ((u : ℚ) / (d : ℚ))) := by
  simp only [updateProgress, Float64.divInt, hu, hd, roundFloat64_of_small u hu1 hu2,
    roundFloat64_of_small d hd1 hd2, hd0, ne_eq, not_false_eq_true, if_true, Butler.min,
    Float64.lt]
  by_cases hc : (1 : ℚ) < (u : ℚ) / (d : ℚ)
  · simp [hc, min_eq_left (le_of_lt hc)]
  · simp [hc, min_eq_right (not_lt.mp hc)]

/-! ## C10 -/

/-- C10 (as stated, refuted): from `progressEarly` to `progressOffered` the
source size is the same and no count has decreased (30 more patch bytes
were offered), yet the reported fraction falls from 1/6 to 1/9. -/
theorem C10_counterexample :
    progressOffered.sourceSize = progressEarly.sourceSize ∧
    progressEarly.readBytes ≤ progressOffered.readBytes ∧
    progressEarly.totalBytes ≤ progressOffered.totalBytes ∧
    progressEarly.uploadedBytes ≤ progressOffered.uploadedBytes ∧
    (updateProgress progressEarly).progress = Float64.fin (1 / 6) ∧
    (updateProgress progressOffered).progress = Float64.fin (1 / 9) ∧
    Float64.le (updateProgress progressEarly).progress
      (updateProgress progressOffered).progress = false := by
  have h1 : (updateProgress progressEarly).progress = Float64.fin (1 / 6) := by
    rw [progress_of_exact progressEarly 10 60 (by decide) (by decide) (by decide) (by decide)
      (by decide) (by decide) (by decide)]
    norm_num
  have h2 : (updateProgress progressOffered).progress = Float64.fin (1 / 9) := by
    rw [progress_of_exact progressOffered 10 90 (by decide) (by decide) (by decide) (by decide)
      (by decide) (by decide) (by decide)]
    norm_num
  refine ⟨rfl, by decide, by decide, by decide, h1, h2, ?_⟩
  rw [h1, h2]
  simp only [Float64.le, decide_eq_false_iff_not]
  norm_num

/-- C10 (amended): between two progress states whose byte counts all lie
between 0 and `2^52`, with the same source size, in which the gone bytes
(bytes read minus patch bytes offered) and the confirmed uploaded bytes have
not decreased and the later conservative total is positive, the later
reported fraction is at least the earlier one. -/
theorem C10_progress_monotone (s1 s2 : ProgressState)
    (hR1 : countsWithin (2 ^ 52) s1) (hR2 : countsWithin (2 ^ 52) s2)
    (hS : s2.sourceSize = s1.sourceSize)
    (hG : goneBytes s1 ≤ goneBytes s2)
    (hU0 : 0 ≤ s1.uploadedBytes)
    (hU : s1.uploadedBytes ≤ s2.uploadedBytes)
    (hD : 0 < conservativeTotalBytes s2) :
    Float64.le (updateProgress s1).progress (updateProgress s2).progress = true := by
  have hw1 : countsWithin (2 ^ 53) s1 := by
    obtain ⟨⟨a0, a⟩, ⟨b0, b⟩, ⟨c0, c⟩, ⟨d0, d⟩⟩ := hR1
    norm_num at a b c d ⊢
    omega
  have hw2 : countsWithin (2 ^ 53) s2 := by
    obtain ⟨⟨a0, a⟩, ⟨b0, b⟩, ⟨c0, c⟩, ⟨d0, d⟩⟩ := hR2
    norm_num at a b c d ⊢
    omega
  obtain ⟨hu1, hg1, hc1, -⟩ := progress_values_exact s1 hw1
  obtain ⟨hu2, hg2, hc2, -⟩ := progress_values_exact s2 hw2
  obtain ⟨⟨a0, a⟩, ⟨b0, b⟩, ⟨c0, c⟩, ⟨d0, d⟩⟩ := hR1
  obtain ⟨⟨a0', a'⟩, ⟨b0', b'⟩, ⟨c0', c'⟩, ⟨d0', d'⟩⟩ := hR2
  norm_num at a b c d a' b' c' d'
  rw [hg1, hg2] at hG
  rw [hc2] at hD
  have hD21 : s2.sourceSize - (s2.readBytes - s2.totalBytes) ≤
      s1.sourceSize - (s1.readBytes - s1.totalBytes) := by omega
  have hD1 : 0 < s1.sourceSize - (s1.readBytes - s1.totalBytes) := lt_of_lt_of_le hD hD21
  rw [progress_of_exact s1 _ _ hu1 hc1 (by omega) (by omega) (by omega) (by omega) (by omega),
    progress_of_exact s2 _ _ hu2 hc2 (by omega) (by omega) (by omega) (by omega) (by omega)]
  simp only [Float64.le, decide_eq_true_eq]
  have hq : (s1.uploadedBytes : ℚ) /
        ((s1.sourceSize - (s1.readBytes - s1.totalBytes) : Int) : ℚ) ≤
      (s2.uploadedBytes : ℚ) /
        ((s2.sourceSize - (s2.readBytes - s2.totalBytes) : Int) : ℚ) := by
    apply div_le_div₀
    · exact_mod_cast le_trans hU0 hU
    · exact_mod_cast hU
    · exact_mod_cast hD
    · exact_mod_cast hD21
  exact min_le_min le_rfl hq

/-- C10 (amended) from `progressEarly` to `progressRead`. -/
theorem C10_progress_monotone_witness :
    Float64.le (updateProgress progressEarly).progress
      (updateProgress progressRead).progress = true :=
  C10_progress_monotone progressEarly progressRead (by decide) (by decide) rfl (by decide)
    (by decide) (by decide) (by decide)

/-! ## C11 -/

/-- C11 (as stated, refuted): in the state `progressWrapped` bytes read,
patch bytes offered and confirmed bytes are as a push can have them and
`sourceSize - (bytesRead - patchBytesOffered)` is `2^64 - 2`, not zero; the
`int64` total of push.go line 158 is -2 and the reported fraction is -1/2:
it is not the quotient clamped to [0, 1] and it lies below 0. -/
theorem C11_counterexample :
    (0 ≤ progressWrapped.readBytes ∧ progressWrapped.readBytes ≤ progressWrapped.sourceSize ∧
      0 ≤ progressWrapped.uploadedBytes ∧
      progressWrapped.uploadedBytes ≤ progressWrapped.totalBytes) ∧
    progressWrapped.sourceSize - (progressWrapped.readBytes - progressWrapped.totalBytes) =
      18446744073709551614 ∧
    conservativeTotalBytes progressWrapped = -2 ∧
    (updateProgress progressWrapped).progress = Float64.fin (-1 / 2) ∧
    (updateProgress progressWrapped).progress ≠
      Float64.fin (Max.max 0 (Min.min
        ((progressWrapped.uploadedBytes : ℚ) /
          ((progressWrapped.sourceSize -
            (progressWrapped.readBytes - progressWrapped.totalBytes) : Int) : ℚ)) 1)) ∧
    Float64.le (Float64.fin 0) (updateProgress progressWrapped).progress = false := by
  have h1 : (updateProgress progressWrapped).progress = Float64.fin (-1 / 2) := by
    rw [progress_of_exact progressWrapped 1 (-2) (by decide) (by decide) (by decide)
      (by decide) (by decide) (by decide) (by decide)]
    norm_num
  refine ⟨by decide, by decide, by decide, h1, ?_, ?_⟩
  · rw [h1]
    norm_num [progressWrapped]
  · rw [h1]
    simp only [Float64.le, decide_eq_false_iff_not]
    norm_num

/-- C11 (amended): for every combination a push can have (bytes read between
0 and the source size, patch bytes offered and confirmed bytes not negative)
with source size, patch bytes offered and confirmed bytes at most `2^52` and
a non-zero conservative total, the `int64` total of push.go line 158 is
`sourceSize - (bytesRead - patchBytesOffered)` and the reported fraction is
confirmed / conservativeTotal clamped to [0, 1]; it lies in [0, 1]. -/
theorem C11_progress_fraction (s : ProgressState)
    (hR0 : 0 ≤ s.readBytes) (hRS : s.readBytes ≤ s.sourceSize)
    (hS : s.sourceSize ≤ 2 ^ 52)
    (hT0 : 0 ≤ s.totalBytes) (hT : s.totalBytes ≤ 2 ^ 52)
    (hU0 : 0 ≤ s.uploadedBytes) (hU : s.uploadedBytes ≤ 2 ^ 52)
    (hD : s.sourceSize - (s.readBytes - s.totalBytes) ≠ 0) :
    conservativeTotalBytes s = s.sourceSize - (s.readBytes - s.totalBytes) ∧
    (updateProgress s).progress =
      Float64.fin (Max.max 0 (Min.min
        ((s.uploadedBytes : ℚ) /
          ((s.sourceSize - (s.readBytes - s.totalBytes) : Int) : ℚ)) 1)) ∧
    ∃ q : ℚ, (updateProgress s).progress = Float64.fin q ∧ 0 ≤ q ∧ q ≤ 1 := by
  norm_num at hS hT hU
  have hw : countsWithin (2 ^ 53) s := by
    unfold countsWithin
    norm_num
    omega
  obtain ⟨hu, -, hc, -⟩ := progress_values_exact s hw
  have hp := progress_of_exact s _ _ hu hc (by omega) (by omega) (by omega) (by omega) hD
  have hDpos : 0 < s.sourceSize - (s.readBytes - s.totalBytes) := by omega
  have h0 : (0 : ℚ) ≤ (s.uploadedBytes : ℚ) /
      ((s.sourceSize - (s.readBytes - s.totalBytes) : Int) : ℚ) := by
    apply div_nonneg
    · exact_mod_cast hU0
    · exact_mod_cast le_of_lt hDpos
  have hm : (0 : ℚ) ≤ Min.min 1 ((s.uploadedBytes : ℚ) /
      ((s.sourceSize - (s.readBytes - s.totalBytes) : Int) : ℚ)) :=
    le_min (by norm_num) h0
  refine ⟨hc, ?_, _, hp, hm, min_le_left _ _⟩
  rw [hp, min_comm, max_eq_right]
  rw [min_comm]
  exact hm

/-- C11 (amended) in the state `progressEarly`: 10 of 60 bytes. -/
theorem C11_progress_fraction_witness :
    progressEarly.sourceSize - (progressEarly.readBytes - progressEarly.totalBytes) ≠ 0 ∧
    conservativeTotalBytes progressEarly = 60 ∧
    ∃ q : ℚ, (updateProgress progressEarly).progress = Float64.fin q ∧ 0 ≤ q ∧ q ≤ 1 :=
  ⟨by decide,
   (C11_progress_fraction progressEarly (by decide) (by decide) (by decide) (by decide)
      (by decide) (by decide) (by decide) (by decide)).1,
   (C11_progress_fraction progressEarly (by decide) (by decide) (by decide) (by decide)
      (by decide) (by decide) (by decide) (by decide)).2.2⟩

/-! ## C12 -/

/-- C12 (as stated, refuted): both states meet 0 <= bytesRead <= sourceSize
and 0 <= confirmedUploaded <= patchBytesOffered.  In `progressBeyondExact`,
at the end of a push, the round trip through `float64` of push.go line 151
turns the `2^53 + 3` confirmed bytes into `2^53 + 4`, above the conservative
total, and `leftBytes` is -1.  In `progressWrapped` the subtraction of line
158 wraps: the conservative total is -2, below the one confirmed byte, and
`leftBytes` is -3. -/
theorem C12_counterexample :
    ((0 ≤ progressBeyondExact.readBytes ∧
        progressBeyondExact.readBytes = progressBeyondExact.sourceSize ∧
        0 ≤ progressBeyondExact.uploadedBytes ∧
        progressBeyondExact.uploadedBytes ≤ progressBeyondExact.totalBytes) ∧
      conservativeTotalBytes progressBeyondExact = 9007199254740995 ∧
      uploadedBytes progressBeyondExact = 9007199254740996 ∧
      leftBytes progressBeyondExact = -1) ∧
    ((0 ≤ progressWrapped.readBytes ∧ progressWrapped.readBytes ≤ progressWrapped.sourceSize ∧
        0 ≤ progressWrapped.uploadedBytes ∧
        progressWrapped.uploadedBytes ≤ progressWrapped.totalBytes) ∧
      conservativeTotalBytes progressWrapped = -2 ∧
      uploadedBytes progressWrapped = 1 ∧
      leftBytes progressWrapped = -3) := by
  decide

/-- C12 (amended): in every progress state with 0 <= bytesRead <= sourceSize
and 0 <= confirmedUploaded <= patchBytesOffered whose source size and patch
bytes offered are at most `2^53`, the conservative total of push.go line 158
is sourceSize - (bytesRead - patchBytesOffered) and is at least the
confirmed uploaded bytes, which line 151 leaves unchanged, so `leftBytes` is
not negative; once the whole source is read the conservative total is the
patch bytes offered. -/
theorem C12_conservative_total_covers_uploaded (s : ProgressState)
    (hR0 : 0 ≤ s.readBytes) (hRS : s.readBytes ≤ s.sourceSize)
    (hU0 : 0 ≤ s.uploadedBytes) (hUT : s.uploadedBytes ≤ s.totalBytes)
    (hS : s.sourceSize ≤ 2 ^ 53) (hT : s.totalBytes ≤ 2 ^ 53) :
    conservativeTotalBytes s = s.sourceSize - (s.readBytes - s.totalBytes) ∧
    uploadedBytes s = s.uploadedBytes ∧
    uploadedBytes s ≤ conservativeTotalBytes s ∧
    0 ≤ leftBytes s ∧
    (s.readBytes = s.sourceSize → conservativeTotalBytes s = s.totalBytes) := by
  have hw : countsWithin (2 ^ 53) s := by
    unfold countsWithin
    norm_num at hS hT ⊢
    omega
  obtain ⟨hu, -, hc, hl⟩ := progress_values_exact s hw
  rw [hu, hc, hl]
  refine ⟨rfl, rfl, ?_, ?_, ?_⟩
  · omega
  · omega
  · intro h
    omega

/-- C12 (amended) at the end of a push, in the state `progressComplete`. -/
theorem C12_conservative_total_witness :
    progressComplete.readBytes = progressComplete.sourceSize ∧
    uploadedBytes progressComplete ≤ conservativeTotalBytes progressComplete ∧
    0 ≤ leftBytes progressComplete :=
  ⟨rfl,
   (C12_conservative_total_covers_uploaded progressComplete (by decide) (by decide)
      (by decide) (by decide) (by decide) (by decide)).2.2.1,
   (C12_conservative_total_covers_uploaded progressComplete (by decide) (by decide)
      (by decide) (by decide) (by decide) (by decide)).2.2.2.1⟩

/-! ## C13 -/

theorem sampler_never_leaves (st : SamplerState) (cs : List SelectCase) :
    (sampler st cs).2 = false := by
  induction cs generalizing st with
  | nil => rfl
  | cons c cs ih =>
    cases c with
    | tick now => simpa [sampler, samplerBody] using ih _
    | stop => simpa [sampler, samplerBody] using ih st

theorem sampler_stop_cons (st : SamplerState) (cs : List SelectCase) :
    sampler st (SelectCase.stop :: cs) = sampler st cs := by
  simp [sampler, samplerBody]

/-- C13 (the code at the failing input): the `select` takes the case
`<-stopTicking` and then, the ticker having fired again, the case
`<-ticker.C`; the sampler has not left its loop after the first, and at the
second it recomputes the throughput (45 bytes per second) and calls
`updateProgress`. -/
theorem C13_sampler_runs_after_stop :
    (sampler SamplerState.initial [SelectCase.stop]).2 = false ∧
    sampler SamplerState.initial [SelectCase.stop, SelectCase.tick countersLate] =
      ([updateProgress ⟨1000, 1000, 100, 90, 45⟩], false) := by
  refine ⟨sampler_never_leaves _ _, ?_⟩
  rw [sampler_stop_cons]
  have hw : wrapInt64 90 = 90 := by decide
  have hr : roundFloat64 90 = 90 := by decide
  have h : (90 : ℚ) / 2 = 45 := by norm_num
  simp [sampler, samplerBody, SamplerState.initial, countersLate, hw, hr, h]

/-! ## C14 -/

theorem splitChars_ne_nil (sep : Char) (cs : List Char) : splitChars sep cs ≠ [] := by
  intro h
  have := splitChars_length sep cs
  rw [h] at this
  simp at this

theorem splitChars_no_sep (sep : Char) (cs : List Char) :
    ∀ t ∈ splitChars sep cs, sep ∉ t := by
  induction cs with
  | nil => simp [splitChars]
  | cons c cs ih =>
    by_cases h : c = sep
    · subst h
      intro t ht
      simp only [splitChars, if_true, List.mem_cons] at ht
      rcases ht with ht | ht
      · subst ht
        simp
      · exact ih t ht
    · obtain ⟨u, us, hus⟩ := List.exists_cons_of_ne_nil (splitChars_ne_nil sep cs)
      intro t ht
      simp only [splitChars, h, if_false, hus, List.mem_cons] at ht
      rw [hus] at ih
      rcases ht with ht | ht
      · subst ht
        have hu := ih u (List.mem_cons_self _ _)
        simp only [List.mem_cons, not_or]
        exact ⟨fun hc => h hc.symm, hu⟩
      · exact ih t (List.mem_cons_of_mem _ ht)

theorem splitChars_one (sep : Char) (cs b : List Char) (h : splitChars sep cs = [b]) :
    cs = b := by
  induction cs generalizing b with
  | nil =>
    simp only [splitChars, List.cons.injEq, and_true] at h
    exact h
  | cons c cs ih =>
    by_cases hc : c = sep
    · subst hc
      simp only [splitChars, if_true, List.cons.injEq] at h
      exact absurd h.2 (splitChars_ne_nil _ _)
    · obtain ⟨u, us, hus⟩ := List.exists_cons_of_ne_nil (splitChars_ne_nil sep cs)
      simp only [splitChars, hc, if_false, hus, List.cons.injEq] at h
      obtain ⟨h1, h2⟩ := h
      subst h2
      rw [ih u hus, ← h1]

theorem splitChars_two (sep : Char) (cs a b : List Char) (h : splitChars sep cs = [a, b]) :
    cs = a ++ sep :: b := by
  induction cs generalizing a b with
  | nil => simp [splitChars] at h
  | cons c cs ih =>
    by_cases hc : c = sep
    · subst hc
      simp only [splitChars, if_true, List.cons.injEq] at h
      obtain ⟨h1, h2⟩ := h
      rw [← h1, splitChars_one _ _ _ h2]
      rfl
    · obtain ⟨u, us, hus⟩ := List.exists_cons_of_ne_nil (splitChars_ne_nil sep cs)
      simp only [splitChars, hc, if_false, hus, List.cons.injEq] at h
      obtain ⟨h1, h2⟩ := h
      subst h2
      rw [ih u b hus, ← h1]
      rfl

theorem parseSpec_failure_empty (spec target channel : String) (e : GoError)
    (h : parseSpec spec = (target, channel, some e)) : target = "" ∧ channel = "" := by
  unfold parseSpec at h
  simp only [] at h
  split at h
  · simp only [Prod.mk.injEq] at h
    exact ⟨h.1.symm, h.2.1.symm⟩
  · split at h
    · simp only [Prod.mk.injEq] at h
      exact ⟨h.1.symm, h.2.1.symm⟩
    · simp at h

theorem parseSpec_success_tokens (spec target channel : String)
    (h : parseSpec spec = (target, channel, none)) :
    splitChars ':' spec.data = [target.data, channel.data] := by
  unfold parseSpec at h
  simp only [] at h
  split at h
  · simp at h
  · split at h
    · simp at h
    · rename_i h1 h2
      have hlen : (splitChars ':' spec.data).length = 2 := by
        have : (stringsSplitColon spec).length = 2 := by
          by_contra hne
          exact h2 hne
        simpa [stringsSplitColon] using this
      obtain ⟨a, b, hab⟩ := List.length_eq_two.mp hlen
      simp only [stringsSplitColon, hab, List.map_cons, List.map_nil, List.getD_cons_zero,
        List.getD_cons_succ, Prod.mk.injEq, and_true] at h
      obtain ⟨ht, hc⟩ := h
      rw [hab, ← ht, ← hc]

/-- C14: when `parseSpec` returns a nil error, neither returned string
contains `:` and target, `":"` and channel put together give the spec back;
when it returns an error, both returned strings are empty. -/
theorem C14_parseSpec_loses_nothing (spec : String) :
    (∀ target channel, parseSpec spec = (target, channel, none) →
      ':' ∉ target.data ∧ ':' ∉ channel.data ∧ target ++ ":" ++ channel = spec) ∧
    (∀ target channel e, parseSpec spec = (target, channel, some e) →
      target = "" ∧ channel = "") := by
  constructor
  · intro target channel h
    have ht := parseSpec_success_tokens spec target channel h
    have hno := splitChars_no_sep ':' spec.data
    rw [ht] at hno
    refine ⟨hno _ (by simp), hno _ (by simp), ?_⟩
    apply String.ext
    rw [splitChars_two ':' spec.data _ _ ht]
    simp [String.data_append]
  · intro target channel e h
    exact parseSpec_failure_empty spec target channel e h

/-- C14 at the specs `"user/page:beta"` and `"foo"`. -/
theorem C14_parseSpec_witness :
    parseSpec "user/page:beta" = ("user/page", "beta", none) ∧
    ("user/page" : String) ++ ":" ++ "beta" = "user/page:beta" ∧
    ((((parseSpec "foo").1 = "")) ∧ (parseSpec "foo").2.1 = "") :=
  ⟨by decide,
   ((C14_parseSpec_loses_nothing "user/page:beta").1 "user/page" "beta" (by decide)).2.2,
   (C14_parseSpec_loses_nothing "foo").2 (parseSpec "foo").1 (parseSpec "foo").2.1
     (GoError.errorf (missingChannelMsg "foo")) (by decide)⟩

/-! ## C15 -/

theorem Uninstall_without_receipt_or_code (w : UninstallWorld) (receipt : Option Receipt)
    (h : receipt = none ∨ receipt = some ⟨""⟩) :
    ∃ e, Uninstall w receipt = ([], some e) := by
  rcases h with h | h <;> subst h <;> simp [Uninstall]

theorem Uninstall_nil_cases (w : UninstallWorld) (receipt : Option Receipt)
    (h : (Uninstall w receipt).2 = none) :
    ∃ r, receipt = some r ∧ r.MSIProductCode ≠ "" ∧
      (0 ∈ exitCodes w (Uninstall w receipt).1 ∨
        ∃ res, w.runSelf ["msi-uninstall", r.MSIProductCode] = Except.ok res ∧
          res.ExitCode ≠ 0 ∧ w.shouldTryElevated res = false) := by
  cases receipt with
  | none => simp [Uninstall] at h
  | some r =>
    refine ⟨r, rfl, ?_⟩
    by_cases hc : r.MSIProductCode = ""
    · simp [Uninstall, hc] at h
    · refine ⟨hc, ?_⟩
      cases h1 : w.runSelf ["msi-uninstall", r.MSIProductCode] with
      | error err => simp [Uninstall, hc, h1] at h
      | ok res =>
        by_cases h0 : res.ExitCode = 0
        · left
          have hU : Uninstall w (some r) = ([["msi-uninstall", r.MSIProductCode]], none) := by
            simp [Uninstall, hc, h1, h0]
          rw [hU]
          simp [exitCodes, h1, h0]
        · cases hs : w.shouldTryElevated res with
          | false => exact Or.inr ⟨res, rfl, h0, hs⟩
          | true =>
            left
            cases h2 : w.runSelf ["msi-uninstall", r.MSIProductCode, "--elevate"] with
            | error err => simp [Uninstall, hc, h1, h0, hs, h2] at h
            | ok res2 =>
              by_cases h3 : res2.ExitCode = 0
              · have hU : Uninstall w (some r) =
                    ([["msi-uninstall", r.MSIProductCode],
                      ["msi-uninstall", r.MSIProductCode, "--elevate"]], none) := by
                  simp [Uninstall, hc, h1, h0, hs, h2, h3]
                rw [hU]
                simp [exitCodes, h1, h2, h3]
              · simp [Uninstall, hc, h1, h0, hs, h2, h3] at h

/-- C15 (the code at the failing input): the receipt carries a product code,
the plain self-run exits with code 1603 and `shouldTryElevated` says no;
`Uninstall` makes that one run, whose exit code is not 0, and returns nil. -/
theorem C15_uninstall_reports_success_after_failed_run :
    Uninstall uninstallFails (some ⟨"PRODUCT-1"⟩) =
      ([["msi-uninstall", "PRODUCT-1"]], none) ∧
    exitCodes uninstallFails (Uninstall uninstallFails (some ⟨"PRODUCT-1"⟩)).1 = [1603] ∧
    (0 : Int) ∉ exitCodes uninstallFails (Uninstall uninstallFails (some ⟨"PRODUCT-1"⟩)).1 := by
  decide

end Butler
